import Mathlib

/-!
Verification of the snow-patches download / snow-mask pipeline.

This file shallowly embeds the data model (`models.py`), the repository
layer (`repositories.py`), the download orchestrator (`download.py`) and
the snow classification engine (`snow_mask.py`) of the repository, and
proves the frozen claims C1..C10 about them.

Modelling conventions:
* SQLAlchemy sessions are modelled by a pair of stores: `committed` (the
  durable database contents) and `current` (the session view including
  uncommitted changes).  `commit` copies `current` into `committed`;
  `rollback` copies `committed` back into `current`.  `commitCount`
  counts commits (used for the batch-commit claim C7).
* Timestamps (`datetime.utcnow()`) are abstract `Nat` clock values
  supplied by the environment; `acquisition_dt` is abstracted to the
  `year`/`month` fields that the code's `strftime` formatting consumes.
* Floating point numbers are modelled by `ℚ` (exact arithmetic); numpy
  arrays by (lists of) lists of `ℚ`.
* External effects (the SentinelHub fetch, raster reads and writes) are
  injected through environment records so that every outcome branch of
  the source is represented.
-/

namespace SnowPatches

/-- Acquisition timestamp, abstracted to the fields that the path
formatting in the code (`strftime "%Y"` and `strftime "%m"`) consumes. -/
structure AcqDate where
  year : Nat
  month : Nat
deriving Repr, DecidableEq

/-- Row of the `aois` table (`models.AOI`); `created_at` (pure
bookkeeping, never read by the modelled operations) is omitted. -/
structure AOIRow where
  id : Nat
  name : String
  center_lat : ℚ
  center_lon : ℚ
  geometry : String
  size_km : ℚ
deriving Repr, DecidableEq

/-- Row of the `sentinel_products` table (`models.SentinelProduct`);
`discovered_at` is omitted (never read by the modelled operations). -/
structure SentinelProductRow where
  id : Nat
  product_id : String
  aoi_id : Nat
  acquisition_dt : AcqDate
  cloud_cover : ℚ
  geometry : String
deriving Repr, DecidableEq

/-- Row of the `download_status` table (`models.DownloadStatus`);
`updated_at` (a timestamp maintained automatically by the ORM column's
`onupdate` hook, not by any modelled operation) is omitted. -/
structure DownloadStatusRow where
  id : Nat
  product_id : Nat
  status : String
  local_path : Option String
  file_size_mb : Option ℚ
  download_start : Option Nat
  download_end : Option Nat
  error_msg : Option String
  retry_count : Nat
deriving Repr, DecidableEq

/-- Row of the `snow_masks` table (`models.SnowMask`). -/
structure SnowMaskRow where
  id : Nat
  product_id : Nat
  ndsi_threshold : ℚ
  snow_pixels : Nat
  total_pixels : Nat
  snow_pct : ℚ
  mask_path : Option String
  processing_dt : Nat
deriving Repr, DecidableEq

/-- The database contents: the four tables plus autoincrement counters
for the primary keys handed out on insert. -/
structure Store where
  aois : List AOIRow
  products : List SentinelProductRow
  downloadStatuses : List DownloadStatusRow
  snowMasks : List SnowMaskRow
  nextProductId : Nat
  nextDownloadStatusId : Nat
  nextSnowMaskId : Nat
deriving Repr, DecidableEq

/-- A SQLAlchemy session over the store: `committed` is the durable
database state, `current` the session view (committed rows plus pending
uncommitted changes; autoflush makes pending changes visible to queries
issued through the same session, so queries read `current`). -/
structure Session where
  committed : Store
  current : Store
  commitCount : Nat
deriving Repr, DecidableEq

/-- `session.commit()`: pending changes become durable. -/
def Session.commit (s : Session) : Session :=
  { s with committed := s.current, commitCount := s.commitCount + 1 }

/-- `session.rollback()`: pending (uncommitted) changes are discarded;
already-committed data is untouched. -/
def Session.rollback (s : Session) : Session :=
  { s with current := s.committed }

/-! ## Repository layer (`repositories.py`) -/

/-- `SentinelProductRepository.get_by_id`. -/
def findProduct (st : Store) (id : Nat) : Option SentinelProductRow :=
  st.products.find? (fun p => p.id == id)

/-- `DownloadStatusRepository.get_by_product_id` (also the
`filter_by(product_id=...).first()` query in `download_product`). -/
def findDownloadByProduct (st : Store) (pid : Nat) : Option DownloadStatusRow :=
  st.downloadStatuses.find? (fun d => d.product_id == pid)

/-- The `filter(DownloadStatus.id == status_id).first()` query in
`DownloadStatusRepository.update_status`. -/
def findDownloadById (st : Store) (id : Nat) : Option DownloadStatusRow :=
  st.downloadStatuses.find? (fun d => d.id == id)

/-- Lookup of `product.aoi` through the `aoi_id` foreign key. -/
def findAOI (st : Store) (id : Nat) : Option AOIRow :=
  st.aois.find? (fun a => a.id == id)

/-- In-place mutation of the download rows matching an id (SQLAlchemy
attribute assignment on the ORM object with that primary key). -/
def updateDownloadRow (st : Store) (id : Nat) (f : DownloadStatusRow → DownloadStatusRow) :
    Store :=
  { st with downloadStatuses :=
      st.downloadStatuses.map (fun r => if r.id == id then f r else r) }

/-- The optional keyword arguments of
`DownloadStatusRepository.update_status`; `none` models an argument left
at its `None` default. -/
structure UpdateStatusArgs where
  status : Option String := none
  local_path : Option String := none
  file_size_mb : Option ℚ := none
  download_start : Option Nat := none
  download_end : Option Nat := none
  error_msg : Option String := none
  retry_count : Option Nat := none
deriving Repr, DecidableEq

/-- `if <arg> is not None: row.<field> = <arg>` for an optional row
field: keep the old value when the argument was left at `None`. -/
def pickField {α : Type} (arg : Option α) (old : Option α) : Option α :=
  match arg with
  | some v => some v
  | none => old

/-- The field-by-field `if <arg> is not None: row.<field> = <arg>`
block of `DownloadStatusRepository.update_status`. -/
def applyUpdate (a : UpdateStatusArgs) (r : DownloadStatusRow) : DownloadStatusRow :=
  { r with
    status := a.status.getD r.status
    local_path := pickField a.local_path r.local_path
    file_size_mb := pickField a.file_size_mb r.file_size_mb
    download_start := pickField a.download_start r.download_start
    download_end := pickField a.download_end r.download_end
    error_msg := pickField a.error_msg r.error_msg
    retry_count := a.retry_count.getD r.retry_count }

/-- `DownloadStatusRepository.update_status`, with the final
`session.commit()` allowed to fail (`commitOk = false`) so the
best-effort error path of `download_product` can be modelled.  Raising
`ValueError` on a missing id is modelled by `Except.error`; on a failed
commit the attribute mutations are still present in the session view
(`current`) but nothing was committed. -/
def update_status_core (commitOk : Bool) (sess : Session) (status_id : Nat)
    (a : UpdateStatusArgs) : Session × Except String DownloadStatusRow :=
  match findDownloadById sess.current status_id with
  | none =>
      (sess, Except.error ("Download status with id " ++ toString status_id ++ " not found"))
  | some r =>
      let r' := applyUpdate a r
      let sess' := { sess with current := updateDownloadRow sess.current status_id (fun _ => r') }
      if commitOk then (sess'.commit, Except.ok r')
      else (sess', Except.error "commit failed")

/-- `DownloadStatusRepository.update_status` (commit succeeds). -/
def update_status (sess : Session) (status_id : Nat) (a : UpdateStatusArgs) :
    Session × Except String DownloadStatusRow :=
  update_status_core true sess status_id a

/-- `DownloadStatusRepository.create` as invoked by `download_product`
(`product_id=..., status='pending'`, every other argument left at its
default); `session.add` followed by `session.commit`. -/
def downloadStatusRepo_create (sess : Session) (product_id : Nat) (status : String) :
    Session × DownloadStatusRow :=
  let st := sess.current
  let row : DownloadStatusRow :=
    { id := st.nextDownloadStatusId, product_id := product_id, status := status,
      local_path := none, file_size_mb := none, download_start := none,
      download_end := none, error_msg := none, retry_count := 0 }
  let sess' := { sess with current :=
    { st with downloadStatuses := st.downloadStatuses ++ [row],
              nextDownloadStatusId := st.nextDownloadStatusId + 1 } }
  (sess'.commit, row)

/-- The duplicate test enforced by the `snow_masks` uniqueness
constraint `(product_id, ndsi_threshold)` at flush time. -/
def snowMaskExists (st : Store) (pid : Nat) (t : ℚ) : Bool :=
  st.snowMasks.any (fun m => m.product_id == pid && decide (m.ndsi_threshold = t))

/-- `SnowMaskRepository.create`: `session.add` then `session.commit`.
If a row for the same `(product_id, ndsi_threshold)` already exists the
commit raises `IntegrityError` (modelled by `Except.error`): nothing is
committed and the pending insert stays in the session view until the
caller rolls back. -/
def snowMaskRepo_create (sess : Session) (product_id : Nat) (ndsi_threshold : ℚ)
    (snow_pixels total_pixels : Nat) (snow_pct : ℚ) (mask_path : Option String)
    (now : Nat) : Session × Except String SnowMaskRow :=
  let st := sess.current
  let row : SnowMaskRow :=
    { id := st.nextSnowMaskId, product_id := product_id,
      ndsi_threshold := ndsi_threshold, snow_pixels := snow_pixels,
      total_pixels := total_pixels, snow_pct := snow_pct,
      mask_path := mask_path, processing_dt := now }
  let sess' := { sess with current :=
    { st with snowMasks := st.snowMasks ++ [row],
              nextSnowMaskId := st.nextSnowMaskId + 1 } }
  if snowMaskExists st product_id ndsi_threshold then
    (sess', Except.error "IntegrityError: UNIQUE constraint failed: snow_masks.product_id, snow_masks.ndsi_threshold")
  else
    (sess'.commit, Except.ok row)

/-- Input record for `SentinelProductRepository.bulk_create_if_not_exists`. -/
structure ProductData where
  product_id : String
  aoi_id : Nat
  acquisition_dt : AcqDate
  cloud_cover : ℚ
  geometry : String
deriving Repr, DecidableEq

/-- `SentinelProductRepository.exists`.  Queries issued through the
session autoflush pending inserts first, so the test reads the session
view (`current`). -/
def productExists (st : Store) (pid : String) : Bool :=
  st.products.any (fun p => p.product_id == pid)

/-- The `for data in products_data` loop of
`bulk_create_if_not_exists`: skip when the product id already exists
(in the session view), otherwise `session.add` (no per-row commit). -/
def bulkLoop : Session → List ProductData → Nat → Nat → Session × Nat × Nat
  | sess, [], created, skipped => (sess, created, skipped)
  | sess, d :: rest, created, skipped =>
    if productExists sess.current d.product_id then
      bulkLoop sess rest created (skipped + 1)
    else
      let st := sess.current
      let row : SentinelProductRow :=
        { id := st.nextProductId, product_id := d.product_id, aoi_id := d.aoi_id,
          acquisition_dt := d.acquisition_dt, cloud_cover := d.cloud_cover,
          geometry := d.geometry }
      let sess' := { sess with current :=
        { st with products := st.products ++ [row],
                  nextProductId := st.nextProductId + 1 } }
      bulkLoop sess' rest (created + 1) skipped

/-- `SentinelProductRepository.bulk_create_if_not_exists`: run the loop,
then `if created_count > 0: session.commit()` (one commit for the whole
batch), and return `(created_count, skipped_count)`. -/
def bulk_create_if_not_exists (sess : Session) (batch : List ProductData) :
    Session × Nat × Nat :=
  let r := bulkLoop sess batch 0 0
  (if 0 < r.2.1 then r.1.commit else r.1, r.2.1, r.2.2)

/-! ## Download orchestrator (`download.py`) -/

/-- Zero-padded two-digit month, the `strftime "%m"` formatting. -/
def pad2 (n : Nat) : String :=
  if n < 10 then "0" ++ toString n else toString n

/-- Four-digit year, the `strftime "%Y"` formatting (years of interest
are four-digit). -/
def pad4 (n : Nat) : String :=
  if n < 10 then "000" ++ toString n
  else if n < 100 then "00" ++ toString n
  else if n < 1000 then "0" ++ toString n
  else toString n

/-- `download.get_output_path`:
`base_dir/aoi_name/YYYY/MM/product_id.tif` (the `mkdir` side effect on
the parent directory is not modelled). -/
def get_output_path (product_id aoi_name : String) (acquisition_date : AcqDate)
    (base_dir : String) : String :=
  base_dir ++ "/" ++ aoi_name ++ "/" ++ pad4 acquisition_date.year ++ "/" ++
    pad2 acquisition_date.month ++ "/" ++ product_id ++ ".tif"

/-- Round-half-even to an integer, the rounding used by Python's
`round`. -/
def roundHalfEven (x : ℚ) : Int :=
  let f := Int.floor x
  let r := x - f
  if r < 1/2 then f
  else if 1/2 < r then f + 1
  else if f % 2 = 0 then f else f + 1

/-- `round(file_size_mb, 2)`. -/
def round2 (x : ℚ) : ℚ :=
  (roundHalfEven (x * 100) : ℚ) / 100

/-- Outcome of `request.get_data()`: a non-empty response, an empty
response (`if not data or len(data) == 0` raises `DownloadError`), or
an exception from the client. -/
inductive FetchOutcome where
  | ok : FetchOutcome
  | empty : FetchOutcome
  | exn (name msg : String) : FetchOutcome
deriving Repr, DecidableEq

/-- Environment of one `download_product` call: the external fetch
outcome, the raster-write outcome (`some (name, msg)` models a raised
exception), the size reported by `stat`, the two `datetime.utcnow()`
readings, and whether the commit inside the best-effort error-path
status update succeeds. -/
structure DownloadEnv where
  fetch : FetchOutcome
  write : Option (String × String)
  fileSizeMb : ℚ
  now1 : Nat
  now2 : Nat
  secondaryCommitOk : Bool
deriving Repr, DecidableEq

/-- The `(success, error_message, file_path)` triple returned by
`download_product`. -/
structure DPResult where
  ok : Bool
  error : Option String
  path : Option String
deriving Repr, DecidableEq

/-- The `except Exception` handler of `download_product`: build
`"<errorType>: <message>"`, best-effort update of the status row to
`failed` with `retry_count + 1` and `download_end`, committing if the
commit succeeds and swallowing the failure otherwise, then return
`(False, error_msg, None)`. -/
def download_failure_update (env : DownloadEnv) (sess : Session) (dsid : Nat)
    (ename emsg : String) : Session × DPResult :=
  let error_msg := ename ++ ": " ++ emsg
  let sess' :=
    match findDownloadById sess.current dsid with
    | none => sess
    | some r =>
        let args : UpdateStatusArgs :=
          { status := some "failed", error_msg := some error_msg,
            retry_count := some (r.retry_count + 1), download_end := some env.now2 }
        let u := update_status_core env.secondaryCommitOk sess dsid args
        match u.2 with
        | Except.ok _ => u.1.commit
        | Except.error _ => u.1
  (sess', { ok := false, error := some error_msg, path := none })

/-- `download.download_product`.  Control flow follows the source: fetch
the product row, get-or-create its `DownloadStatus`, short-circuit when
already downloaded with a local path, record `download_start`, compute
the output path, fetch, write the raster, then mark `downloaded`; any
exception after the status row exists lands in
`download_failure_update`. -/
def download_product (env : DownloadEnv) (sess : Session) (product_db_id : Nat)
    (output_dir : String) : Session × DPResult :=
  match findProduct sess.current product_db_id with
  | none =>
      (sess, { ok := false,
               error := some ("Product with ID " ++ toString product_db_id ++
                 " not found in database"),
               path := none })
  | some product =>
    let step2 :=
      match findDownloadByProduct sess.current product.id with
      | some ds => (sess, ds)
      | none => downloadStatusRepo_create sess product.id "pending"
    let sess1 := step2.1
    let download_status := step2.2
    if download_status.status == "downloaded" && download_status.local_path.isSome then
      (sess1, { ok := true, error := none, path := download_status.local_path })
    else
      let u := update_status sess1 download_status.id { download_start := some env.now1 }
      let sess2 := u.1.commit
      match findAOI sess2.current product.aoi_id with
      | none =>
          download_failure_update env sess2 download_status.id
            "AttributeError" "NoneType object has no attribute name"
      | some aoi =>
        let file_path := get_output_path product.product_id aoi.name
          product.acquisition_dt output_dir
        match env.fetch with
        | FetchOutcome.exn n m =>
            download_failure_update env sess2 download_status.id n m
        | FetchOutcome.empty =>
            download_failure_update env sess2 download_status.id "DownloadError"
              ("No data returned for product " ++ product.product_id)
        | FetchOutcome.ok =>
          match env.write with
          | some nm => download_failure_update env sess2 download_status.id nm.1 nm.2
          | none =>
            let args : UpdateStatusArgs :=
              { status := some "downloaded", local_path := some file_path,
                file_size_mb := some (round2 env.fileSizeMb),
                download_end := some env.now2 }
            let u2 := update_status sess2 download_status.id args
            let sess3 := u2.1.commit
            (sess3, { ok := true, error := none, path := some file_path })

/-- Per-batch counters returned by the batch drivers. -/
structure BatchStats where
  success : Nat
  failed : Nat
  skipped : Nat
deriving Repr, DecidableEq

/-- The `for download_status in pending_statuses` loop of
`download_pending_products`, threading the session and tallying
`success` (ok with no error), `skipped` (ok with an error message) and
`failed`. -/
def downloadLoop (envOf : Nat → DownloadEnv) (output_dir : String) :
    List DownloadStatusRow → Nat → Session → BatchStats → Session × BatchStats
  | [], _, sess, stats => (sess, stats)
  | d :: rest, i, sess, stats =>
    let r := download_product (envOf i) sess d.product_id output_dir
    let stats' :=
      if r.2.ok then
        if r.2.error == none then { stats with success := stats.success + 1 }
        else { stats with skipped := stats.skipped + 1 }
      else { stats with failed := stats.failed + 1 }
    downloadLoop envOf output_dir rest (i + 1) r.1 stats'

/-- `download.download_pending_products`: snapshot the rows with
`status = 'pending'`, truncate to `limit` when it is not `None`, and
run the download loop.  `max_retries` is accepted but never used, as in
the source. -/
def download_pending_products (envOf : Nat → DownloadEnv) (sess : Session)
    (limit : Option Nat) (max_retries : Option Nat) (output_dir : String) :
    Session × BatchStats :=
  let pending := sess.current.downloadStatuses.filter (fun d => d.status == "pending")
  let pending :=
    match limit with
    | none => pending
    | some n => pending.take n
  downloadLoop envOf output_dir pending 0 sess
    { success := 0, failed := 0, skipped := 0 }

/-! ## Snow classification engine (`snow_mask.py`) -/

/-- A 2-D numeric array (numpy `ndarray`), as a list of rows. -/
abbrev Grid := List (List ℚ)

/-- `snow_mask.EPSILON = 1e-8`. -/
def EPSILON : ℚ := 1 / 100000000

/-- `snow_mask.DEFAULT_NDSI_THRESHOLD = 0.4`. -/
def DEFAULT_NDSI_THRESHOLD : ℚ := 2 / 5

/-- The numpy shape of a 2-D array: number of rows together with the
row lengths (for the rectangular arrays numpy produces this carries
exactly the `(rows, cols)` information the `.shape` comparison uses). -/
def gridShape (a : Grid) : Nat × List Nat :=
  (a.length, a.map List.length)

/-- `snow_mask.calculate_ndsi`: raise `ValueError` on a shape mismatch,
otherwise return the elementwise
`(green - swir) / (green + swir + epsilon)`. -/
def calculate_ndsi (band_green band_swir : Grid) (epsilon : ℚ) :
    Except String Grid :=
  if gridShape band_green = gridShape band_swir then
    Except.ok (List.zipWith
      (fun rg rs => List.zipWith
        (fun g s => (g - s) / (g + s + epsilon)) rg rs)
      band_green band_swir)
  else
    Except.error "Shape mismatch: band_green shape is not equal to band_swir shape"

/-- `snow_mask.apply_threshold`: elementwise
`(ndsi > threshold).astype(np.uint8)`; the resulting 0/1 values are
modelled as `Nat` (they fit the 8-bit unsigned `MASK_DTYPE`). -/
def apply_threshold (ndsi : Grid) (threshold : ℚ) : List (List Nat) :=
  ndsi.map (fun row => row.map (fun v => if threshold < v then 1 else 0))

/-- The `(snow_pixels, total_pixels, snow_pct)` dictionary returned by
`calculate_snow_statistics`. -/
structure SnowStats where
  snow_pixels : Nat
  total_pixels : Nat
  snow_pct : ℚ
deriving Repr, DecidableEq

/-- `snow_mask.calculate_snow_statistics`: `np.sum`, `.size`, and
`(snow_pixels / total_pixels) * 100.0` guarded by `total_pixels > 0`. -/
def calculate_snow_statistics (snow_mask : List (List Nat)) : SnowStats :=
  let snow_pixels := (snow_mask.map (fun r => r.sum)).sum
  let total_pixels := (snow_mask.map List.length).sum
  { snow_pixels := snow_pixels
    total_pixels := total_pixels
    snow_pct := if 0 < total_pixels then
        ((snow_pixels : ℚ) / (total_pixels : ℚ)) * 100
      else 0 }

/-- The `f"{ndsi_threshold:.1f}"` formatting in
`get_mask_output_path` (one decimal digit, round-half-even). -/
def formatThreshold (t : ℚ) : String :=
  let n := roundHalfEven (t * 10)
  let sign := if n < 0 then "-" else ""
  sign ++ toString (n.natAbs / 10) ++ "." ++ toString (n.natAbs % 10)

/-- `snow_mask.get_mask_output_path`:
`base_dir/aoi_name/YYYY/MM/product_id_ndsi<threshold>.tif`. -/
def get_mask_output_path (product_id aoi_name : String)
    (acquisition_date : AcqDate) (ndsi_threshold : ℚ) (base_dir : String) : String :=
  base_dir ++ "/" ++ aoi_name ++ "/" ++ pad4 acquisition_date.year ++ "/" ++
    pad2 acquisition_date.month ++ "/" ++ product_id ++ "_ndsi" ++
    formatThreshold ndsi_threshold ++ ".tif"

/-- Outcome of `read_bands_from_geotiff`: the two bands, or a raised
`FileNotFoundError`, or a raised `InvalidBandDataError` (fewer than two
bands).  The metadata dict is not modelled (it is only passed through
to the raster writer). -/
inductive ReadOutcome where
  | ok (band_green band_swir : Grid) : ReadOutcome
  | fileNotFound (msg : String) : ReadOutcome
  | invalidBand (msg : String) : ReadOutcome
deriving Repr, DecidableEq

/-- Environment of one `process_product_snow_mask` call: the raster
read outcome, the mask-write outcome (`some msg` models a raised
exception in `save_snow_mask`), and the `datetime.utcnow()` default
recorded in `processing_dt`. -/
structure SnowEnv where
  read : ReadOutcome
  maskWriteError : Option String
  now : Nat
deriving Repr, DecidableEq

/-- The result payload dict of `process_product_snow_mask`. -/
structure SnowResult where
  product_id : String
  snow_pct : ℚ
  snow_pixels : Nat
  total_pixels : Nat
  mask_path : Option String
deriving Repr, DecidableEq

/-- The `(success, error_message, result_data)` triple of
`process_product_snow_mask`. -/
structure SnowCall where
  ok : Bool
  error : Option String
  result : Option SnowResult
deriving Repr, DecidableEq

/-- `snow_mask.process_product_snow_mask`.  Mirrors the source: fetch
product, status row and AOI with their guard failures, commit the
`processing` status, read the raster at `local_path`, compute NDSI,
mask and statistics, optionally save the mask, create the `SnowMask`
row, commit `processed`; every raised exception is caught, rolls the
session back and returns a failure triple. -/
def process_product_snow_mask (env : SnowEnv) (sess : Session)
    (product_db_id : Nat) (ndsi_threshold : ℚ) (save_mask : Bool) :
    Session × SnowCall :=
  match findProduct sess.current product_db_id with
  | none =>
      (sess, { ok := false,
               error := some ("Product " ++ toString product_db_id ++ " not found"),
               result := none })
  | some product =>
    match findDownloadByProduct sess.current product_db_id with
    | none =>
        (sess, { ok := false,
                 error := some ("No download status for product " ++
                   toString product_db_id),
                 result := none })
    | some download_status =>
      if download_status.status ≠ "downloaded" then
        (sess, { ok := false,
                 error := some ("Product not downloaded (status: " ++
                   download_status.status ++ ")"),
                 result := none })
      else
        match findAOI sess.current product.aoi_id with
        | none =>
            (sess, { ok := false,
                     error := some ("Product " ++ toString product_db_id ++
                       " has no associated AOI"),
                     result := none })
        | some aoi =>
          let cur1 := updateDownloadRow sess.current download_status.id
            (fun r => { r with status := "processing" })
          let sess1 := { sess with current := cur1 }
          let sess2 := sess1.commit
          match download_status.local_path with
          | none =>
              (sess2.rollback,
               { ok := false,
                 error := some "Processing error: argument should be a str, not NoneType",
                 result := none })
          | some _ =>
            match env.read with
            | ReadOutcome.fileNotFound m =>
                (sess2.rollback,
                 { ok := false, error := some ("File error: " ++ m), result := none })
            | ReadOutcome.invalidBand m =>
                (sess2.rollback,
                 { ok := false, error := some ("Band data error: " ++ m), result := none })
            | ReadOutcome.ok band_green band_swir =>
              match calculate_ndsi band_green band_swir EPSILON with
              | Except.error m =>
                  (sess2.rollback,
                   { ok := false, error := some ("Processing error: " ++ m),
                     result := none })
              | Except.ok ndsi =>
                let snow_mask := apply_threshold ndsi ndsi_threshold
                let stats := calculate_snow_statistics snow_mask
                let mask_path : Option String :=
                  if save_mask then
                    some (get_mask_output_path product.product_id aoi.name
                      product.acquisition_dt ndsi_threshold "data/snow_masks")
                  else none
                match save_mask, env.maskWriteError with
                | true, some m =>
                    (sess2.rollback,
                     { ok := false, error := some ("Processing error: " ++ m),
                       result := none })
                | _, _ =>
                  let c := snowMaskRepo_create sess2 product_db_id ndsi_threshold
                    stats.snow_pixels stats.total_pixels stats.snow_pct
                    mask_path env.now
                  match c.2 with
                  | Except.error m =>
                      (c.1.rollback,
                       { ok := false, error := some ("Processing error: " ++ m),
                         result := none })
                  | Except.ok _ =>
                    let cur3 := updateDownloadRow c.1.current download_status.id
                      (fun r => { r with status := "processed" })
                    let sess3 := { c.1 with current := cur3 }
                    let sess4 := sess3.commit
                    (sess4,
                     { ok := true, error := none,
                       result := some
                         { product_id := product.product_id,
                           snow_pct := stats.snow_pct,
                           snow_pixels := stats.snow_pixels,
                           total_pixels := stats.total_pixels,
                           mask_path := mask_path } })

/-- The `for download in downloaded` loop of
`process_downloaded_products`. -/
def processLoop (envOf : Nat → SnowEnv) (ndsi_threshold : ℚ) (save_masks : Bool) :
    List DownloadStatusRow → Nat → Session → BatchStats → Session × BatchStats
  | [], _, sess, stats => (sess, stats)
  | d :: rest, i, sess, stats =>
    let r := process_product_snow_mask (envOf i) sess d.product_id
      ndsi_threshold save_masks
    let stats' :=
      if r.2.ok then { stats with success := stats.success + 1 }
      else { stats with failed := stats.failed + 1 }
    processLoop envOf ndsi_threshold save_masks rest (i + 1) r.1 stats'

/-- `snow_mask.process_downloaded_products`: snapshot the rows with
`status = 'downloaded'`, truncate with the truthiness test
`if limit:` (so `limit = 0` does not truncate), run the loop; the
`skipped` counter is initialised to 0 and never incremented, as in the
source. -/
def process_downloaded_products (envOf : Nat → SnowEnv) (sess : Session)
    (ndsi_threshold : ℚ) (save_masks : Bool) (limit : Option Nat) :
    Session × BatchStats :=
  let downloaded := sess.current.downloadStatuses.filter
    (fun d => d.status == "downloaded")
  let downloaded :=
    match limit with
    | none => downloaded
    | some n => if n = 0 then downloaded else downloaded.take n
  processLoop envOf ndsi_threshold save_masks downloaded 0 sess
    { success := 0, failed := 0, skipped := 0 }

/-! ## List helper lemmas -/

theorem getD_zipWith {α β γ : Type} (f : α → β → γ) (da : α) (db : β) (dc : γ) :
    ∀ (a : List α) (b : List β) (i : Nat), i < a.length → i < b.length →
      (List.zipWith f a b).getD i dc = f (a.getD i da) (b.getD i db) := by
  intro a
  induction a with
  | nil => intro b i h _; simp at h
  | cons x xs ih =>
    intro b i h1 h2
    cases b with
    | nil => simp at h2
    | cons y ys =>
      cases i with
      | zero => simp [List.getD]
      | succ n =>
        simp only [List.zipWith_cons_cons]
        have h1' : n < xs.length := by simpa using h1
        have h2' : n < ys.length := by simpa using h2
        simpa [List.getD] using ih ys n h1' h2'

theorem getD_map {α β : Type} (f : α → β) (da : α) (db : β) :
    ∀ (a : List α) (i : Nat), i < a.length →
      (a.map f).getD i db = f (a.getD i da) := by
  intro a
  induction a with
  | nil => intro i h; simp at h
  | cons x xs ih =>
    intro i h
    cases i with
    | zero => simp [List.getD]
    | succ n =>
      have h' : n < xs.length := by simpa using h
      simpa [List.getD] using ih n h'

theorem mem_of_mem_zipWith {α β γ : Type} (f : α → β → γ) :
    ∀ (a : List α) (b : List β) (c : γ), c ∈ List.zipWith f a b →
      ∃ x, x ∈ a ∧ ∃ y, y ∈ b ∧ c = f x y := by
  intro a
  induction a with
  | nil => intro b c h; simp at h
  | cons x xs ih =>
    intro b c h
    cases b with
    | nil => simp at h
    | cons y ys =>
      simp only [List.zipWith_cons_cons, List.mem_cons] at h
      rcases h with h | h
      · exact ⟨x, by simp, y, by simp, h⟩
      · rcases ih ys c h with ⟨x', hx', y', hy', hc⟩
        exact ⟨x', by simp [hx'], y', by simp [hy'], hc⟩

/-! ## Find/update helper lemmas -/

/-- The primary-key uniqueness of the `download_status` table. -/
abbrev NodupIds (l : List DownloadStatusRow) : Prop :=
  (l.map (fun r => r.id)).Nodup

/-- The `unique=True` constraint on `download_status.product_id`. -/
abbrev NodupPids (l : List DownloadStatusRow) : Prop :=
  (l.map (fun r => r.product_id)).Nodup

theorem find?_map_comm {α : Type} (g : α → α) (p : α → Bool)
    (h : ∀ x, p (g x) = p x) :
    ∀ l : List α, (l.map g).find? p = (l.find? p).map g := by
  intro l
  induction l with
  | nil => rfl
  | cons a t ih =>
    simp only [List.map_cons, List.find?_cons, h a]
    cases hpa : p a with
    | true => rfl
    | false => simpa using ih

theorem find?_eq_of_mem_nodup {α β : Type} [DecidableEq β] (key : α → β) :
    ∀ (l : List α) (r : α), r ∈ l → (l.map key).Nodup →
      l.find? (fun x => key x == key r) = some r := by
  intro l
  induction l with
  | nil => intro r hr _; simp at hr
  | cons a t ih =>
    intro r hr hnd
    rw [List.map_cons, List.nodup_cons] at hnd
    rcases List.mem_cons.mp hr with h | h
    · subst h
      simp [List.find?_cons]
    · have hk : ¬key a = key r := by
        intro he
        exact hnd.1 (he ▸ List.mem_map_of_mem key h)
      simp only [List.find?_cons]
      cases hb : (key a == key r) with
      | true => exact absurd (by simpa using hb) hk
      | false => exact ih r h hnd.2

theorem findDownloadById_of_mem (st : Store) (r : DownloadStatusRow)
    (hr : r ∈ st.downloadStatuses) (hnd : NodupIds st.downloadStatuses) :
    findDownloadById st r.id = some r :=
  find?_eq_of_mem_nodup (fun d : DownloadStatusRow => d.id)
    st.downloadStatuses r hr hnd

theorem findDownloadByProduct_of_mem (st : Store) (r : DownloadStatusRow)
    (hr : r ∈ st.downloadStatuses) (hnd : NodupPids st.downloadStatuses) :
    findDownloadByProduct st r.product_id = some r :=
  find?_eq_of_mem_nodup (fun d : DownloadStatusRow => d.product_id)
    st.downloadStatuses r hr hnd

theorem findDownloadById_updateRow (st : Store) (i j : Nat)
    (f : DownloadStatusRow → DownloadStatusRow)
    (hf : ∀ r, r.id = i → (f r).id = r.id) :
    findDownloadById (updateDownloadRow st i f) j =
      (findDownloadById st j).map (fun r => if r.id == i then f r else r) := by
  unfold findDownloadById updateDownloadRow
  exact find?_map_comm _ _ (by
    intro x
    by_cases hx : x.id = i
    · simp [hx, hf x hx]
    · simp [hx]) st.downloadStatuses

theorem findDownloadByProduct_updateRow (st : Store) (i : Nat) (pid : Nat)
    (f : DownloadStatusRow → DownloadStatusRow)
    (hf : ∀ r, r.id = i → (f r).product_id = r.product_id) :
    findDownloadByProduct (updateDownloadRow st i f) pid =
      (findDownloadByProduct st pid).map (fun r => if r.id == i then f r else r) := by
  unfold findDownloadByProduct updateDownloadRow
  exact find?_map_comm _ _ (by
    intro x
    by_cases hx : x.id = i
    · simp [hx, hf x hx]
    · simp [hx]) st.downloadStatuses

theorem findAOI_updateRow (st : Store) (i j : Nat)
    (f : DownloadStatusRow → DownloadStatusRow) :
    findAOI (updateDownloadRow st i f) j = findAOI st j := rfl

theorem updateDownloadRow_snowMasks (st : Store) (i : Nat)
    (f : DownloadStatusRow → DownloadStatusRow) :
    (updateDownloadRow st i f).snowMasks = st.snowMasks := rfl

theorem updateDownloadRow_products (st : Store) (i : Nat)
    (f : DownloadStatusRow → DownloadStatusRow) :
    (updateDownloadRow st i f).products = st.products := rfl

theorem updateDownloadRow_aois (st : Store) (i : Nat)
    (f : DownloadStatusRow → DownloadStatusRow) :
    (updateDownloadRow st i f).aois = st.aois := rfl

theorem findProduct_updateRow (st : Store) (i j : Nat)
    (f : DownloadStatusRow → DownloadStatusRow) :
    findProduct (updateDownloadRow st i f) j = findProduct st j := rfl

theorem updateRow_updateRow (st : Store) (i : Nat) (b c : DownloadStatusRow)
    (hb : b.id = i) :
    updateDownloadRow (updateDownloadRow st i (fun _ => b)) i (fun _ => c) =
      updateDownloadRow st i (fun _ => c) := by
  unfold updateDownloadRow
  cases st with
  | mk aois products downloadStatuses snowMasks nP nD nS =>
    simp only [List.map_map, Store.mk.injEq, and_true, true_and]
    apply List.map_congr_left
    intro r _
    by_cases hr : r.id = i
    · simp [hr, hb]
    · simp [hr]

/-! ## Path lemmas for `download_product` -/

/-- The row as updated by the success path of `download_product`. -/
def successRow (env : DownloadEnv) (ds : DownloadStatusRow) (fp : String) :
    DownloadStatusRow :=
  { ds with download_start := some env.now1, status := "downloaded",
            local_path := some fp, file_size_mb := some (round2 env.fileSizeMb),
            download_end := some env.now2 }

/-- The row as updated by the failure path of `download_product`. -/
def failedRow (env : DownloadEnv) (ds : DownloadStatusRow) (emsg : String) :
    DownloadStatusRow :=
  { ds with download_start := some env.now1, status := "failed",
            error_msg := some emsg, retry_count := ds.retry_count + 1,
            download_end := some env.now2 }

theorem download_product_success (env : DownloadEnv) (sess : Session)
    (product_db_id : Nat) (output_dir : String) (product : SentinelProductRow)
    (ds : DownloadStatusRow) (aoi : AOIRow)
    (hP : findProduct sess.current product_db_id = some product)
    (hD : findDownloadByProduct sess.current product.id = some ds)
    (hnd : NodupIds sess.current.downloadStatuses)
    (hshort : (ds.status == "downloaded" && ds.local_path.isSome) = false)
    (hA : findAOI sess.current product.aoi_id = some aoi)
    (hfetch : env.fetch = FetchOutcome.ok)
    (hwrite : env.write = none) :
    (download_product env sess product_db_id output_dir).2 =
      { ok := true, error := none,
        path := some (get_output_path product.product_id aoi.name
          product.acquisition_dt output_dir) } ∧
    (download_product env sess product_db_id output_dir).1.current =
      updateDownloadRow sess.current ds.id
        (fun _ => successRow env ds (get_output_path product.product_id aoi.name
          product.acquisition_dt output_dir)) ∧
    (download_product env sess product_db_id output_dir).1.committed =
      updateDownloadRow sess.current ds.id
        (fun _ => successRow env ds (get_output_path product.product_id aoi.name
          product.acquisition_dt output_dir)) := by
  have hmem : ds ∈ sess.current.downloadStatuses := List.mem_of_find?_eq_some hD
  have hid : findDownloadById sess.current ds.id = some ds :=
    findDownloadById_of_mem _ _ hmem hnd
  have hds1 : applyUpdate { download_start := some env.now1 } ds =
      { ds with download_start := some env.now1 } := rfl
  have hid2 : findDownloadById
      (updateDownloadRow sess.current ds.id
        (fun _ => { ds with download_start := some env.now1 })) ds.id =
      some { ds with download_start := some env.now1 } := by
    rw [findDownloadById_updateRow sess.current ds.id ds.id
      (fun _ => { ds with download_start := some env.now1 })
      (fun r hr => hr.symm), hid]
    simp
  unfold download_product
  rw [hP]
  simp only [hD]
  rw [hshort]
  simp only [Bool.false_eq_true, if_false, update_status, update_status_core, hid,
    hds1, Session.commit, findAOI_updateRow, hA, hfetch, hwrite, hid2, if_true]
  simp only [updateRow_updateRow sess.current ds.id
    { ds with download_start := some env.now1 } _ rfl]
  refine ⟨?_, ?_, ?_⟩ <;>
    simp [successRow, applyUpdate, pickField]

/-- The row written by the best-effort error path of
`download_product` as a function of the row found at handler time. -/
def handlerRow (env : DownloadEnv) (ds1 : DownloadStatusRow) (emsg : String) :
    DownloadStatusRow :=
  applyUpdate
    { status := some "failed", error_msg := some emsg,
      retry_count := some (ds1.retry_count + 1),
      download_end := some env.now2 } ds1

theorem download_failure_update_eq (env : DownloadEnv) (sess : Session)
    (dsid : Nat) (n m : String) (ds1 : DownloadStatusRow)
    (hid : findDownloadById sess.current dsid = some ds1) :
    download_failure_update env sess dsid n m =
      (let s1 : Session := { sess with current := updateDownloadRow sess.current dsid (fun _ => handlerRow env ds1 (n ++ ": " ++ m)) }
       (if env.secondaryCommitOk then s1.commit.commit else s1,
        { ok := false, error := some (n ++ ": " ++ m), path := none })) := by
  unfold download_failure_update handlerRow
  rw [hid]
  simp only [update_status_core, hid]
  cases hsec : env.secondaryCommitOk with
  | true => simp
  | false => simp


set_option maxHeartbeats 1000000

theorem download_product_failure (env : DownloadEnv) (sess : Session)
    (product_db_id : Nat) (output_dir : String) (product : SentinelProductRow)
    (ds : DownloadStatusRow) (aoi : AOIRow) (n m : String)
    (hP : findProduct sess.current product_db_id = some product)
    (hD : findDownloadByProduct sess.current product.id = some ds)
    (hnd : NodupIds sess.current.downloadStatuses)
    (hshort : (ds.status == "downloaded" && ds.local_path.isSome) = false)
    (hA : findAOI sess.current product.aoi_id = some aoi)
    (hfail : env.fetch = FetchOutcome.exn n m ∨
      (env.fetch = FetchOutcome.ok ∧ env.write = some (n, m)) ∨
      (env.fetch = FetchOutcome.empty ∧ n = "DownloadError" ∧
        m = "No data returned for product " ++ product.product_id)) :
    (download_product env sess product_db_id output_dir).2 =
      { ok := false, error := some (n ++ ": " ++ m), path := none } ∧
    (download_product env sess product_db_id output_dir).1.current =
      updateDownloadRow sess.current ds.id
        (fun _ => failedRow env ds (n ++ ": " ++ m)) ∧
    (env.secondaryCommitOk = true →
      (download_product env sess product_db_id output_dir).1.committed =
        updateDownloadRow sess.current ds.id
          (fun _ => failedRow env ds (n ++ ": " ++ m))) ∧
    (env.secondaryCommitOk = false →
      (download_product env sess product_db_id output_dir).1.committed =
        updateDownloadRow sess.current ds.id
          (fun _ => { ds with download_start := some env.now1 })) := by
  have hmem : ds ∈ sess.current.downloadStatuses := List.mem_of_find?_eq_some hD
  have hid : findDownloadById sess.current ds.id = some ds :=
    findDownloadById_of_mem _ _ hmem hnd
  have hds1 : applyUpdate { download_start := some env.now1 } ds =
      { ds with download_start := some env.now1 } := rfl
  have hid2 : findDownloadById
      (updateDownloadRow sess.current ds.id
        (fun _ => { ds with download_start := some env.now1 })) ds.id =
      some { ds with download_start := some env.now1 } := by
    rw [findDownloadById_updateRow sess.current ds.id ds.id
      (fun _ => { ds with download_start := some env.now1 })
      (fun r hr => hr.symm), hid]
    simp
  have hcomp := updateRow_updateRow sess.current ds.id
    { ds with download_start := some env.now1 }
    (failedRow env ds (n ++ ": " ++ m)) rfl
  unfold download_product
  rw [hP]
  cases hsec : env.secondaryCommitOk with
  | true =>
    rcases hfail with hf | ⟨hf, hw⟩ | ⟨hf, hn, hm⟩
    · refine ⟨?_, ?_, fun _ => ?_, fun h => by simp [hsec] at h⟩ <;>
      simp [hD, hshort, update_status, update_status_core, hid, hds1, hid2,
        Session.commit, findAOI_updateRow, hA, hf, hsec, download_failure_update,
        failedRow, applyUpdate, pickField, hcomp, updateRow_updateRow]
    · refine ⟨?_, ?_, fun _ => ?_, fun h => by simp [hsec] at h⟩ <;>
      simp [hD, hshort, update_status, update_status_core, hid, hds1, hid2,
        Session.commit, findAOI_updateRow, hA, hf, hw, hsec, download_failure_update,
        failedRow, applyUpdate, pickField, hcomp, updateRow_updateRow]
    · subst hn hm
      refine ⟨?_, ?_, fun _ => ?_, fun h => by simp [hsec] at h⟩ <;>
      simp [hD, hshort, update_status, update_status_core, hid, hds1, hid2,
        Session.commit, findAOI_updateRow, hA, hf, hsec, download_failure_update,
        failedRow, applyUpdate, pickField, hcomp, updateRow_updateRow]
  | false =>
    rcases hfail with hf | ⟨hf, hw⟩ | ⟨hf, hn, hm⟩
    · refine ⟨?_, ?_, fun h => by simp [hsec] at h, fun _ => ?_⟩ <;>
      simp [hD, hshort, update_status, update_status_core, hid, hds1, hid2,
        Session.commit, findAOI_updateRow, hA, hf, hsec, download_failure_update,
        failedRow, applyUpdate, pickField, hcomp, updateRow_updateRow]
    · refine ⟨?_, ?_, fun h => by simp [hsec] at h, fun _ => ?_⟩ <;>
      simp [hD, hshort, update_status, update_status_core, hid, hds1, hid2,
        Session.commit, findAOI_updateRow, hA, hf, hw, hsec, download_failure_update,
        failedRow, applyUpdate, pickField, hcomp, updateRow_updateRow]
    · subst hn hm
      refine ⟨?_, ?_, fun h => by simp [hsec] at h, fun _ => ?_⟩ <;>
      simp [hD, hshort, update_status, update_status_core, hid, hds1, hid2,
        Session.commit, findAOI_updateRow, hA, hf, hsec, download_failure_update,
        failedRow, applyUpdate, pickField, hcomp, updateRow_updateRow]

/-! ## Concrete fixtures used by witnesses and counterexamples -/

/-- A concrete AOI row. -/
def exAoi : AOIRow :=
  { id := 1, name := "ben_nevis", center_lat := 56, center_lon := -5,
    geometry := "POLY", size_km := 10 }

/-- A concrete scene row for `exAoi`. -/
def exProduct : SentinelProductRow :=
  { id := 1, product_id := "S2A_X", aoi_id := 1,
    acquisition_dt := { year := 2024, month := 1 }, cloud_cover := 10,
    geometry := "G" }

/-- A freshly created pending status row for `exProduct`. -/
def exDsPending : DownloadStatusRow :=
  { id := 1, product_id := 1, status := "pending", local_path := none,
    file_size_mb := none, download_start := none, download_end := none,
    error_msg := none, retry_count := 0 }

/-- A downloaded status row for `exProduct`. -/
def exDsDownloaded : DownloadStatusRow :=
  { id := 1, product_id := 1, status := "downloaded", local_path := some "f.tif",
    file_size_mb := some 5, download_start := some 1, download_end := some 2,
    error_msg := none, retry_count := 0 }

/-- A failed status row for `exProduct` carrying error bookkeeping. -/
def exDsFailed : DownloadStatusRow :=
  { id := 1, product_id := 1, status := "failed", local_path := none,
    file_size_mb := none, download_start := some 1, download_end := some 2,
    error_msg := some "DownloadError: boom", retry_count := 3 }

/-- A concrete snow mask row for `exProduct` at threshold 1. -/
def exMask1 : SnowMaskRow :=
  { id := 1, product_id := 1, ndsi_threshold := 1, snow_pixels := 2,
    total_pixels := 4, snow_pct := 50, mask_path := none, processing_dt := 5 }

/-- A discovery batch with one pre-existing (`S2A_X`) and one new
(`NEW1`) product id. -/
def exBatch : List ProductData :=
  [{ product_id := "S2A_X", aoi_id := 1, acquisition_dt := { year := 2024, month := 2 },
     cloud_cover := 5, geometry := "g" },
   { product_id := "NEW1", aoi_id := 1, acquisition_dt := { year := 2024, month := 2 },
     cloud_cover := 5, geometry := "g" }]

/-- One-scene store around a given status row and mask list. -/
def exStore (ds : DownloadStatusRow) (masks : List SnowMaskRow) : Store :=
  { aois := [exAoi], products := [exProduct], downloadStatuses := [ds],
    snowMasks := masks, nextProductId := 2, nextDownloadStatusId := 2,
    nextSnowMaskId := masks.length + 1 }

/-- Fully committed one-scene session. -/
def exSess (ds : DownloadStatusRow) (masks : List SnowMaskRow) : Session :=
  { committed := exStore ds masks, current := exStore ds masks, commitCount := 0 }

/-- A download environment whose fetch and write succeed. -/
def envFetchOk : DownloadEnv :=
  { fetch := FetchOutcome.ok, write := none, fileSizeMb := 5, now1 := 3,
    now2 := 4, secondaryCommitOk := true }

/-- A download environment whose fetch raises. -/
def envFetchFail : DownloadEnv :=
  { fetch := FetchOutcome.exn "ConnectionError" "boom", write := none,
    fileSizeMb := 5, now1 := 3, now2 := 4, secondaryCommitOk := true }

/-- A snow environment whose raster read raises `FileNotFoundError`. -/
def envReadFail : SnowEnv :=
  { read := ReadOutcome.fileNotFound "GeoTIFF file not found: f.tif",
    maskWriteError := none, now := 9 }

/-- A snow environment that reads a 2x2 raster, half snow. -/
def envReadOk : SnowEnv :=
  { read := ReadOutcome.ok [[80, 80], [20, 20]] [[20, 20], [80, 80]],
    maskWriteError := none, now := 9 }

/-! ## Claim C5: idempotent short-circuit -/

/-- Claim C5: when the scene's `DownloadStatus` is `downloaded` with a
non-null `local_path`, `download_product` returns success with exactly
that path and the untouched session; the result does not depend on the
download environment (so no external fetch is consulted); and a second
call in the resulting state returns the same path again. -/
theorem download_product_short_circuit (env : DownloadEnv) (sess : Session)
    (product_db_id : Nat) (output_dir : String) (product : SentinelProductRow)
    (ds : DownloadStatusRow) (p : String)
    (hP : findProduct sess.current product_db_id = some product)
    (hD : findDownloadByProduct sess.current product.id = some ds)
    (hst : ds.status = "downloaded") (hlp : ds.local_path = some p) :
    download_product env sess product_db_id output_dir =
      (sess, { ok := true, error := none, path := some p }) ∧
    (∀ env' : DownloadEnv, download_product env' sess product_db_id output_dir =
      download_product env sess product_db_id output_dir) ∧
    (download_product env (download_product env sess product_db_id output_dir).1
      product_db_id output_dir).2.path = some p := by
  have h1 : download_product env sess product_db_id output_dir =
      (sess, { ok := true, error := none, path := some p }) := by
    unfold download_product
    rw [hP]
    simp [hD, hst, hlp]
  refine ⟨h1, fun env' => ?_, ?_⟩
  · rw [h1]
    unfold download_product
    rw [hP]
    simp [hD, hst, hlp]
  · rw [h1, h1]

/-- Witness for C5 on a concrete one-scene store. -/
theorem download_product_short_circuit_witness :
    download_product envFetchOk (exSess exDsDownloaded []) 1 "data/sentinel2" =
      (exSess exDsDownloaded [], { ok := true, error := none, path := some "f.tif" }) ∧
    (∀ env' : DownloadEnv,
      download_product env' (exSess exDsDownloaded []) 1 "data/sentinel2" =
        download_product envFetchOk (exSess exDsDownloaded []) 1 "data/sentinel2") ∧
    (download_product envFetchOk
      (download_product envFetchOk (exSess exDsDownloaded []) 1 "data/sentinel2").1
      1 "data/sentinel2").2.path = some "f.tif" :=
  download_product_short_circuit envFetchOk (exSess exDsDownloaded []) 1
    "data/sentinel2" exProduct exDsDownloaded "f.tif" rfl rfl rfl rfl

/-! ## Claim C10: partial update frame condition -/

/-- Claim C10: `DownloadStatusRepository.update_status` applies exactly
the supplied (non-`None`) fields and leaves every other modelled row
field unchanged, so an optional field can never be reset to null by an
omitted argument; consequently, a `download_product` success on a row
that previously failed leaves the old `error_msg` and `retry_count`
intact next to the new `downloaded` status.  (The `updated_at` column,
refreshed automatically by the ORM on every update, is outside the
model.) -/
theorem update_status_frame :
    (∀ (sess : Session) (status_id : Nat) (a : UpdateStatusArgs)
      (r : DownloadStatusRow),
      findDownloadById sess.current status_id = some r →
      ∃ r', (update_status sess status_id a).2 = Except.ok r' ∧
        r'.id = r.id ∧ r'.product_id = r.product_id ∧
        (a.status = none → r'.status = r.status) ∧
        (∀ v, a.status = some v → r'.status = v) ∧
        (a.local_path = none → r'.local_path = r.local_path) ∧
        (∀ v, a.local_path = some v → r'.local_path = some v) ∧
        (a.file_size_mb = none → r'.file_size_mb = r.file_size_mb) ∧
        (∀ v, a.file_size_mb = some v → r'.file_size_mb = some v) ∧
        (a.download_start = none → r'.download_start = r.download_start) ∧
        (∀ v, a.download_start = some v → r'.download_start = some v) ∧
        (a.download_end = none → r'.download_end = r.download_end) ∧
        (∀ v, a.download_end = some v → r'.download_end = some v) ∧
        (a.error_msg = none → r'.error_msg = r.error_msg) ∧
        (∀ v, a.error_msg = some v → r'.error_msg = some v) ∧
        (a.retry_count = none → r'.retry_count = r.retry_count) ∧
        (∀ v, a.retry_count = some v → r'.retry_count = v) ∧
        (r'.local_path = none → r.local_path = none) ∧
        (r'.file_size_mb = none → r.file_size_mb = none) ∧
        (r'.download_start = none → r.download_start = none) ∧
        (r'.download_end = none → r.download_end = none) ∧
        (r'.error_msg = none → r.error_msg = none)) ∧
    (∀ (env : DownloadEnv) (sess : Session) (product_db_id : Nat)
      (output_dir : String) (product : SentinelProductRow)
      (ds : DownloadStatusRow) (aoi : AOIRow) (em : String) (k : Nat),
      findProduct sess.current product_db_id = some product →
      findDownloadByProduct sess.current product.id = some ds →
      NodupIds sess.current.downloadStatuses →
      ds.status = "failed" → ds.error_msg = some em → ds.retry_count = k →
      findAOI sess.current product.aoi_id = some aoi →
      env.fetch = FetchOutcome.ok → env.write = none →
      ∃ r', findDownloadById
          (download_product env sess product_db_id output_dir).1.current ds.id =
          some r' ∧
        r'.status = "downloaded" ∧ r'.error_msg = some em ∧
        r'.retry_count = k ∧
        r'.local_path = some (get_output_path product.product_id aoi.name
          product.acquisition_dt output_dir)) := by
  constructor
  · intro sess status_id a r h
    refine ⟨applyUpdate a r, ?_, rfl, rfl, ?_⟩
    · unfold update_status update_status_core
      rw [h]
      simp
    · unfold applyUpdate pickField
      cases a with
      | mk s lp fs dst den em rc =>
        refine ⟨?_, ?_, ?_, ?_, ?_, ?_, ?_, ?_, ?_, ?_, ?_, ?_, ?_, ?_, ?_, ?_, ?_, ?_, ?_⟩ <;>
          first
          | (intro h1; subst h1; cases s <;> cases lp <;> cases fs <;> cases dst <;>
              cases den <;> cases em <;> cases rc <;> simp)
          | (intro v h1; subst h1; simp)
          | (cases s <;> cases lp <;> cases fs <;> cases dst <;> cases den <;>
              cases em <;> cases rc <;> simp)
  · intro env sess product_db_id output_dir product ds aoi em k
      hP hD hnd hst hem hrc hA hfetch hwrite
    have hshort : (ds.status == "downloaded" && ds.local_path.isSome) = false := by
      rw [hst]
      simp
    obtain ⟨-, hcur, -⟩ := download_product_success env sess product_db_id output_dir
      product ds aoi hP hD hnd hshort hA hfetch hwrite
    refine ⟨successRow env ds (get_output_path product.product_id aoi.name
      product.acquisition_dt output_dir), ?_, rfl, ?_, ?_, rfl⟩
    · rw [hcur]
      have hmem : ds ∈ sess.current.downloadStatuses := List.mem_of_find?_eq_some hD
      have hid : findDownloadById sess.current ds.id = some ds :=
        findDownloadById_of_mem _ _ hmem hnd
      rw [findDownloadById_updateRow sess.current ds.id ds.id
        (fun _ => successRow env ds (get_output_path product.product_id aoi.name
          product.acquisition_dt output_dir))
        (fun r hr => hr.symm), hid]
      simp
    · simp [successRow, hem]
    · simp [successRow, hrc]

/-- Witness for C10: both parts applied on a concrete store. -/
theorem update_status_frame_witness :
    (∃ r', (update_status (exSess exDsFailed []) 1 { status := some "pending" }).2 =
        Except.ok r' ∧
      r'.id = exDsFailed.id ∧ r'.product_id = exDsFailed.product_id ∧
      (({ status := some "pending" } : UpdateStatusArgs).status = none → r'.status = exDsFailed.status) ∧
      (∀ v, ({ status := some "pending" } : UpdateStatusArgs).status = some v → r'.status = v) ∧
      (({ status := some "pending" } : UpdateStatusArgs).local_path = none → r'.local_path = exDsFailed.local_path) ∧
      (∀ v, ({ status := some "pending" } : UpdateStatusArgs).local_path = some v → r'.local_path = some v) ∧
      (({ status := some "pending" } : UpdateStatusArgs).file_size_mb = none → r'.file_size_mb = exDsFailed.file_size_mb) ∧
      (∀ v, ({ status := some "pending" } : UpdateStatusArgs).file_size_mb = some v → r'.file_size_mb = some v) ∧
      (({ status := some "pending" } : UpdateStatusArgs).download_start = none → r'.download_start = exDsFailed.download_start) ∧
      (∀ v, ({ status := some "pending" } : UpdateStatusArgs).download_start = some v → r'.download_start = some v) ∧
      (({ status := some "pending" } : UpdateStatusArgs).download_end = none → r'.download_end = exDsFailed.download_end) ∧
      (∀ v, ({ status := some "pending" } : UpdateStatusArgs).download_end = some v → r'.download_end = some v) ∧
      (({ status := some "pending" } : UpdateStatusArgs).error_msg = none → r'.error_msg = exDsFailed.error_msg) ∧
      (∀ v, ({ status := some "pending" } : UpdateStatusArgs).error_msg = some v → r'.error_msg = some v) ∧
      (({ status := some "pending" } : UpdateStatusArgs).retry_count = none → r'.retry_count = exDsFailed.retry_count) ∧
      (∀ v, ({ status := some "pending" } : UpdateStatusArgs).retry_count = some v → r'.retry_count = v) ∧
      (r'.local_path = none → exDsFailed.local_path = none) ∧
      (r'.file_size_mb = none → exDsFailed.file_size_mb = none) ∧
      (r'.download_start = none → exDsFailed.download_start = none) ∧
      (r'.download_end = none → exDsFailed.download_end = none) ∧
      (r'.error_msg = none → exDsFailed.error_msg = none)) ∧
    (∃ r', findDownloadById
        (download_product envFetchOk (exSess exDsFailed []) 1 "data/sentinel2").1.current
        exDsFailed.id = some r' ∧
      r'.status = "downloaded" ∧ r'.error_msg = some "DownloadError: boom" ∧
      r'.retry_count = 3 ∧
      r'.local_path = some (get_output_path exProduct.product_id exAoi.name
        exProduct.acquisition_dt "data/sentinel2")) := by
  constructor
  · exact update_status_frame.1 (exSess exDsFailed []) 1 { status := some "pending" }
      exDsFailed rfl
  · exact update_status_frame.2 envFetchOk (exSess exDsFailed []) 1 "data/sentinel2"
      exProduct exDsFailed exAoi "DownloadError: boom" 3 rfl rfl (by decide) rfl rfl
      rfl rfl rfl rfl

/-! ## Claim C4: failure bookkeeping in `download_product` -/

/-- Claim C4: whenever `download_product` catches an exception after the
status row exists (external fetch failure, empty data, or raster-write
failure), the row is updated to `failed` with
`error_msg = "<errorType>: <message>"`, `retry_count` incremented by
exactly one and `download_end` set, and this update is committed; if the
best-effort secondary update itself fails it is swallowed; in either
case the call returns `(False, errorMessage, None)` (the function is
total, so nothing propagates to the caller). -/
theorem download_product_error_handling (env : DownloadEnv) (sess : Session)
    (product_db_id : Nat) (output_dir : String) (product : SentinelProductRow)
    (ds : DownloadStatusRow) (aoi : AOIRow) (n m : String)
    (hP : findProduct sess.current product_db_id = some product)
    (hD : findDownloadByProduct sess.current product.id = some ds)
    (hnd : NodupIds sess.current.downloadStatuses)
    (hshort : (ds.status == "downloaded" && ds.local_path.isSome) = false)
    (hA : findAOI sess.current product.aoi_id = some aoi)
    (hfail : env.fetch = FetchOutcome.exn n m ∨
      (env.fetch = FetchOutcome.ok ∧ env.write = some (n, m)) ∨
      (env.fetch = FetchOutcome.empty ∧ n = "DownloadError" ∧
        m = "No data returned for product " ++ product.product_id)) :
    (download_product env sess product_db_id output_dir).2 =
      { ok := false, error := some (n ++ ": " ++ m), path := none } ∧
    (∃ r', findDownloadById
        (download_product env sess product_db_id output_dir).1.current ds.id =
        some r' ∧
      r'.status = "failed" ∧ r'.error_msg = some (n ++ ": " ++ m) ∧
      r'.retry_count = ds.retry_count + 1 ∧ r'.download_end = some env.now2 ∧
      r'.local_path = ds.local_path) ∧
    (env.secondaryCommitOk = true →
      ∃ r', findDownloadById
          (download_product env sess product_db_id output_dir).1.committed ds.id =
          some r' ∧
        r'.status = "failed" ∧ r'.error_msg = some (n ++ ": " ++ m) ∧
        r'.retry_count = ds.retry_count + 1 ∧ r'.download_end = some env.now2) := by
  obtain ⟨hres, hcur, hcom, -⟩ := download_product_failure env sess product_db_id
    output_dir product ds aoi n m hP hD hnd hshort hA hfail
  have hmem : ds ∈ sess.current.downloadStatuses := List.mem_of_find?_eq_some hD
  have hid : findDownloadById sess.current ds.id = some ds :=
    findDownloadById_of_mem _ _ hmem hnd
  have hfind : findDownloadById (updateDownloadRow sess.current ds.id
      (fun _ => failedRow env ds (n ++ ": " ++ m))) ds.id =
      some (failedRow env ds (n ++ ": " ++ m)) := by
    rw [findDownloadById_updateRow sess.current ds.id ds.id
      (fun _ => failedRow env ds (n ++ ": " ++ m)) (fun r hr => hr.symm), hid]
    simp
  refine ⟨hres, ⟨failedRow env ds (n ++ ": " ++ m), ?_, rfl, rfl, rfl, rfl, rfl⟩,
    fun hsec => ⟨failedRow env ds (n ++ ": " ++ m), ?_, rfl, rfl, rfl, rfl⟩⟩
  · rw [hcur]
    exact hfind
  · rw [hcom hsec]
    exact hfind

/-- Witness for C4: a fetch failure on a concrete pending scene. -/
theorem download_product_error_handling_witness :
    (download_product envFetchFail (exSess exDsPending []) 1 "data/sentinel2").2 =
      { ok := false, error := some ("ConnectionError" ++ ": " ++ "boom"),
        path := none } ∧
    (∃ r', findDownloadById
        (download_product envFetchFail (exSess exDsPending []) 1
          "data/sentinel2").1.current exDsPending.id = some r' ∧
      r'.status = "failed" ∧
      r'.error_msg = some ("ConnectionError" ++ ": " ++ "boom") ∧
      r'.retry_count = exDsPending.retry_count + 1 ∧
      r'.download_end = some envFetchFail.now2 ∧
      r'.local_path = exDsPending.local_path) ∧
    (envFetchFail.secondaryCommitOk = true →
      ∃ r', findDownloadById
          (download_product envFetchFail (exSess exDsPending []) 1
            "data/sentinel2").1.committed exDsPending.id = some r' ∧
        r'.status = "failed" ∧
        r'.error_msg = some ("ConnectionError" ++ ": " ++ "boom") ∧
        r'.retry_count = exDsPending.retry_count + 1 ∧
        r'.download_end = some envFetchFail.now2) :=
  download_product_error_handling envFetchFail (exSess exDsPending []) 1
    "data/sentinel2" exProduct exDsPending exAoi "ConnectionError" "boom"
    rfl rfl (by decide) rfl rfl (Or.inl rfl)

/-! ## Claim C1: read failure after the processing commit -/

/-- Counterexample to C1 as stated: on a concrete downloaded scene whose
raster read fails, the status guard passed, the call fails, the session
is rolled back — but the durably committed status after the failure
return is `processing`, not the pre-call value `downloaded`, because the
`processing` update was committed before the read and `rollback` cannot
undo a commit. -/
theorem process_read_failure_not_reverted :
    exDsDownloaded.status = "downloaded" ∧
    (process_product_snow_mask envReadFail (exSess exDsDownloaded []) 1 (2/5)
      true).2.ok = false ∧
    (findDownloadById (process_product_snow_mask envReadFail
      (exSess exDsDownloaded []) 1 (2/5) true).1.committed 1).map
      (fun r => r.status) = some "processing" ∧
    ¬((findDownloadById (process_product_snow_mask envReadFail
      (exSess exDsDownloaded []) 1 (2/5) true).1.committed 1).map
      (fun r => r.status) = some "downloaded") := by
  refine ⟨rfl, rfl, rfl, ?_⟩
  intro h
  rw [show (findDownloadById (process_product_snow_mask envReadFail
      (exSess exDsDownloaded []) 1 (2/5) true).1.committed 1).map
      (fun r => r.status) = some "processing" from rfl] at h
  have h2 : ("processing" : String) = "downloaded" := Option.some.inj h
  exact absurd h2 (by decide)

/-- Claim C1 as amended: if the raster read fails after the status guard
passed, the call returns failure and the session is rolled back (the
session view equals the committed state afterwards), but the rollback
only discards uncommitted changes — the `processing` status was
committed in step 2, so the durably committed status after the failure
return is `processing`, not the pre-call `downloaded`. -/
theorem process_read_failure_commits_processing (env : SnowEnv) (sess : Session)
    (product_db_id : Nat) (t : ℚ) (sm : Bool) (product : SentinelProductRow)
    (ds : DownloadStatusRow) (aoi : AOIRow) (p : String)
    (hP : findProduct sess.current product_db_id = some product)
    (hD : findDownloadByProduct sess.current product_db_id = some ds)
    (hnd : NodupIds sess.current.downloadStatuses)
    (hst : ds.status = "downloaded")
    (hA : findAOI sess.current product.aoi_id = some aoi)
    (hlp : ds.local_path = some p)
    (hread : (∃ m', env.read = ReadOutcome.fileNotFound m') ∨
      (∃ m', env.read = ReadOutcome.invalidBand m')) :
    (process_product_snow_mask env sess product_db_id t sm).2.ok = false ∧
    (process_product_snow_mask env sess product_db_id t sm).1.current =
      (process_product_snow_mask env sess product_db_id t sm).1.committed ∧
    findDownloadById
      (process_product_snow_mask env sess product_db_id t sm).1.committed ds.id =
      some { ds with status := "processing" } ∧
    (process_product_snow_mask env sess product_db_id t sm).1.committed =
      updateDownloadRow sess.current ds.id
        (fun r => { r with status := "processing" }) := by
  have hmem : ds ∈ sess.current.downloadStatuses := List.mem_of_find?_eq_some hD
  have hid : findDownloadById sess.current ds.id = some ds :=
    findDownloadById_of_mem _ _ hmem hnd
  have hfind : findDownloadById (updateDownloadRow sess.current ds.id
      (fun r => { r with status := "processing" })) ds.id =
      some { ds with status := "processing" } := by
    rw [findDownloadById_updateRow sess.current ds.id ds.id
      (fun r => { r with status := "processing" }) (fun r _ => rfl), hid]
    simp
  rcases hread with ⟨m', hm⟩ | ⟨m', hm⟩ <;>
  · unfold process_product_snow_mask
    rw [hP]
    simp only [hD, hst]
    simp [hA, hlp, hm, Session.commit, Session.rollback, hfind]

/-- Witness for the amended C1 on the concrete downloaded scene. -/
theorem process_read_failure_commits_processing_witness :
    (process_product_snow_mask envReadFail (exSess exDsDownloaded []) 1 (2/5)
      true).2.ok = false ∧
    (process_product_snow_mask envReadFail (exSess exDsDownloaded []) 1 (2/5)
      true).1.current =
      (process_product_snow_mask envReadFail (exSess exDsDownloaded []) 1 (2/5)
        true).1.committed ∧
    findDownloadById (process_product_snow_mask envReadFail
      (exSess exDsDownloaded []) 1 (2/5) true).1.committed exDsDownloaded.id =
      some { exDsDownloaded with status := "processing" } ∧
    (process_product_snow_mask envReadFail (exSess exDsDownloaded []) 1 (2/5)
      true).1.committed =
      updateDownloadRow (exSess exDsDownloaded []).current exDsDownloaded.id
        (fun r => { r with status := "processing" }) :=
  process_read_failure_commits_processing envReadFail (exSess exDsDownloaded [])
    1 (2/5) true exProduct exDsDownloaded exAoi "f.tif" rfl rfl (by decide) rfl
    rfl rfl (Or.inl ⟨"GeoTIFF file not found: f.tif", rfl⟩)

/-! ## Claim C6: SnowMask uniqueness -/

theorem snowMaskRepo_create_ok (sess : Session) (pid : Nat) (t : ℚ)
    (sp tp : Nat) (pct : ℚ) (mp : Option String) (now : Nat)
    (hex : snowMaskExists sess.current pid t = false) :
    ∃ r, (snowMaskRepo_create sess pid t sp tp pct mp now).2 = Except.ok r := by
  simp only [snowMaskRepo_create]
  rw [hex]
  simp

/-- Claim C6: creating a `SnowMask` for a `(product_id, ndsi_threshold)`
pair that already exists fails with the uniqueness violation, committing
nothing and leaving the existing record in place; a
`process_product_snow_mask` invocation that reaches the create step with
such a duplicate returns failure and leaves the stored mask rows exactly
as they were; and two creates for the same product at distinct
thresholds both succeed. -/
theorem snow_mask_duplicate_rejection :
    (∀ (sess : Session) (pid : Nat) (t : ℚ) (sp tp : Nat) (pct : ℚ)
      (mp : Option String) (now : Nat) (m0 : SnowMaskRow),
      m0 ∈ sess.current.snowMasks → m0.product_id = pid → m0.ndsi_threshold = t →
      ∃ e, (snowMaskRepo_create sess pid t sp tp pct mp now).2 = Except.error e ∧
        (snowMaskRepo_create sess pid t sp tp pct mp now).1.committed =
          sess.committed ∧
        m0 ∈ (snowMaskRepo_create sess pid t sp tp pct mp now).1.current.snowMasks) ∧
    (∀ (env : SnowEnv) (sess : Session) (product_db_id : Nat) (t : ℚ) (sm : Bool)
      (product : SentinelProductRow) (ds : DownloadStatusRow) (aoi : AOIRow)
      (p : String) (g s : Grid),
      findProduct sess.current product_db_id = some product →
      findDownloadByProduct sess.current product_db_id = some ds →
      ds.status = "downloaded" →
      findAOI sess.current product.aoi_id = some aoi →
      ds.local_path = some p →
      env.read = ReadOutcome.ok g s →
      gridShape g = gridShape s →
      (sm = false ∨ env.maskWriteError = none) →
      snowMaskExists sess.current product_db_id t = true →
      (process_product_snow_mask env sess product_db_id t sm).2.ok = false ∧
      (process_product_snow_mask env sess product_db_id t sm).1.current.snowMasks =
        sess.current.snowMasks ∧
      (process_product_snow_mask env sess product_db_id t sm).1.committed.snowMasks =
        sess.current.snowMasks) ∧
    (∀ (sess : Session) (pid : Nat) (t1 t2 : ℚ) (sp tp : Nat) (pct : ℚ)
      (mp : Option String) (now : Nat),
      t1 ≠ t2 →
      snowMaskExists sess.current pid t1 = false →
      snowMaskExists sess.current pid t2 = false →
      ∃ r1, (snowMaskRepo_create sess pid t1 sp tp pct mp now).2 = Except.ok r1 ∧
        ∃ r2, (snowMaskRepo_create
          (snowMaskRepo_create sess pid t1 sp tp pct mp now).1
          pid t2 sp tp pct mp now).2 = Except.ok r2) := by
  refine ⟨?_, ?_, ?_⟩
  · intro sess pid t sp tp pct mp now m0 hm hpid ht
    have hex : snowMaskExists sess.current pid t = true := by
      unfold snowMaskExists
      rw [List.any_eq_true]
      exact ⟨m0, hm, by simp [hpid, ht]⟩
    refine ⟨"IntegrityError: UNIQUE constraint failed: snow_masks.product_id, snow_masks.ndsi_threshold", ?_, ?_, ?_⟩ <;>
      simp [snowMaskRepo_create, hex, hm]
  · intro env sess product_db_id t sm product ds aoi p g s
      hP hD hst hA hlp hread hsh hwr hdup
    have hndsi : calculate_ndsi g s EPSILON = Except.ok (List.zipWith
        (fun rg rs => List.zipWith (fun a b => (a - b) / (a + b + EPSILON)) rg rs)
        g s) := by
      unfold calculate_ndsi
      rw [if_pos hsh]
    have hdup' : snowMaskExists (updateDownloadRow sess.current ds.id
        (fun r => { r with status := "processing" })) product_db_id t =
        snowMaskExists sess.current product_db_id t := rfl
    rcases hwr with hw | hw
    · subst hw
      unfold process_product_snow_mask
      rw [hP]
      simp only [hD, hst]
      simp [hA, hlp, hread, hndsi, snowMaskRepo_create, hdup', hdup,
        Session.commit, Session.rollback, updateDownloadRow_snowMasks]
    · cases sm with
      | false =>
        unfold process_product_snow_mask
        rw [hP]
        simp only [hD, hst]
        simp [hA, hlp, hread, hndsi, snowMaskRepo_create, hdup', hdup,
          Session.commit, Session.rollback, updateDownloadRow_snowMasks]
      | true =>
        unfold process_product_snow_mask
        rw [hP]
        simp only [hD, hst]
        simp [hA, hlp, hread, hndsi, hw, snowMaskRepo_create, hdup', hdup,
          Session.commit, Session.rollback, updateDownloadRow_snowMasks]
  · intro sess pid t1 t2 sp tp pct mp now hne hex1 hex2
    have hex2' : snowMaskExists
        (snowMaskRepo_create sess pid t1 sp tp pct mp now).1.current pid t2 =
        false := by
      simp only [snowMaskRepo_create]
      rw [hex1]
      simp only [Bool.false_eq_true, if_false, Session.commit]
      unfold snowMaskExists at hex2 ⊢
      rw [List.any_append, hex2]
      simp [hne]
    obtain ⟨r1, h1⟩ := snowMaskRepo_create_ok sess pid t1 sp tp pct mp now hex1
    obtain ⟨r2, h2⟩ := snowMaskRepo_create_ok
      (snowMaskRepo_create sess pid t1 sp tp pct mp now).1 pid t2 sp tp pct mp now
      hex2'
    exact ⟨r1, h1, r2, h2⟩

/-- Witness for C6 on a concrete store holding a mask at threshold 1 for
scene 1. -/
theorem snow_mask_duplicate_rejection_witness :
    (∃ e, (snowMaskRepo_create (exSess exDsDownloaded [exMask1]) 1 1 2 4 50
        none 9).2 = Except.error e ∧
      (snowMaskRepo_create (exSess exDsDownloaded [exMask1]) 1 1 2 4 50
        none 9).1.committed = (exSess exDsDownloaded [exMask1]).committed ∧
      exMask1 ∈ (snowMaskRepo_create (exSess exDsDownloaded [exMask1]) 1 1 2 4 50
        none 9).1.current.snowMasks) ∧
    ((process_product_snow_mask envReadOk (exSess exDsDownloaded [exMask1]) 1 1
        false).2.ok = false ∧
      (process_product_snow_mask envReadOk (exSess exDsDownloaded [exMask1]) 1 1
        false).1.current.snowMasks = (exSess exDsDownloaded [exMask1]).current.snowMasks ∧
      (process_product_snow_mask envReadOk (exSess exDsDownloaded [exMask1]) 1 1
        false).1.committed.snowMasks = (exSess exDsDownloaded [exMask1]).current.snowMasks) ∧
    (∃ r1, (snowMaskRepo_create (exSess exDsDownloaded []) 1 1 2 4 50 none 9).2 =
        Except.ok r1 ∧
      ∃ r2, (snowMaskRepo_create
        (snowMaskRepo_create (exSess exDsDownloaded []) 1 1 2 4 50 none 9).1
        1 2 2 4 50 none 9).2 = Except.ok r2) := by
  refine ⟨?_, ?_, ?_⟩
  · exact snow_mask_duplicate_rejection.1 (exSess exDsDownloaded [exMask1]) 1 1 2 4
      50 none 9 exMask1 (by simp [exSess, exStore]) rfl rfl
  · exact snow_mask_duplicate_rejection.2.1 envReadOk
      (exSess exDsDownloaded [exMask1]) 1 1 false exProduct exDsDownloaded exAoi
      "f.tif" [[80, 80], [20, 20]] [[20, 20], [80, 80]] rfl rfl rfl rfl rfl rfl
      (by decide) (Or.inl rfl) (by decide)
  · exact snow_mask_duplicate_rejection.2.2 (exSess exDsDownloaded []) 1 1 2 2 4 50
      none 9 (by decide) (by decide) (by decide)

/-! ## Claim C7: bulk create if not exists -/

theorem bulkLoop_counts : ∀ (batch : List ProductData) (sess : Session) (c s : Nat),
    (bulkLoop sess batch c s).2.1 + (bulkLoop sess batch c s).2.2 =
      c + s + batch.length := by
  intro batch
  induction batch with
  | nil => intro sess c s; simp [bulkLoop]
  | cons d rest ih =>
    intro sess c s
    unfold bulkLoop
    cases hex : productExists sess.current d.product_id with
    | true =>
        simp only [if_true]
        rw [ih]
        simp only [List.length_cons]
        omega
    | false =>
        simp only [Bool.false_eq_true, if_false]
        rw [ih]
        simp only [List.length_cons]
        omega

theorem bulkLoop_no_commit : ∀ (batch : List ProductData) (sess : Session) (c s : Nat),
    (bulkLoop sess batch c s).1.commitCount = sess.commitCount ∧
    (bulkLoop sess batch c s).1.committed = sess.committed := by
  intro batch
  induction batch with
  | nil => intro sess c s; exact ⟨rfl, rfl⟩
  | cons d rest ih =>
    intro sess c s
    unfold bulkLoop
    cases hex : productExists sess.current d.product_id with
    | true => simpa using ih sess c (s + 1)
    | false => simpa using ih _ (c + 1) s

theorem bulkLoop_products : ∀ (batch : List ProductData) (sess : Session) (c s : Nat),
    ∃ added, (bulkLoop sess batch c s).1.current.products =
      sess.current.products ++ added ∧
      (bulkLoop sess batch c s).2.1 = c + added.length := by
  intro batch
  induction batch with
  | nil => intro sess c s; exact ⟨[], by simp [bulkLoop]⟩
  | cons d rest ih =>
    intro sess c s
    unfold bulkLoop
    cases hex : productExists sess.current d.product_id with
    | true => simpa using ih sess c (s + 1)
    | false =>
        simp only [Bool.false_eq_true, if_false]
        obtain ⟨added, h1, h2⟩ := ih ({ sess with current :=
          { sess.current with
            products := sess.current.products ++ [{ id := sess.current.nextProductId, product_id := d.product_id, aoi_id := d.aoi_id, acquisition_dt := d.acquisition_dt, cloud_cover := d.cloud_cover, geometry := d.geometry }],
            nextProductId := sess.current.nextProductId + 1 } }) (c + 1) s
        refine ⟨{ id := sess.current.nextProductId, product_id := d.product_id, aoi_id := d.aoi_id, acquisition_dt := d.acquisition_dt, cloud_cover := d.cloud_cover, geometry := d.geometry } :: added, ?_, ?_⟩
        · rw [h1]
          simp
        · rw [h2]
          simp
          omega

theorem bulkLoop_presence : ∀ (batch : List ProductData) (sess : Session) (c s : Nat)
    (pid : String),
    (∃ q ∈ (bulkLoop sess batch c s).1.current.products, q.product_id = pid) ↔
      ((∃ q ∈ sess.current.products, q.product_id = pid) ∨
        pid ∈ batch.map (fun d => d.product_id)) := by
  intro batch
  induction batch with
  | nil => intro sess c s pid; simp [bulkLoop]
  | cons d rest ih =>
    intro sess c s pid
    unfold bulkLoop
    cases hex : productExists sess.current d.product_id with
    | true =>
        simp only [if_true]
        rw [ih]
        simp only [List.map_cons, List.mem_cons]
        constructor
        · rintro (h | h)
          · exact Or.inl h
          · exact Or.inr (Or.inr h)
        · rintro (h | h | h)
          · exact Or.inl h
          · subst h
            unfold productExists at hex
            rw [List.any_eq_true] at hex
            obtain ⟨q, hq, hq2⟩ := hex
            exact Or.inl ⟨q, hq, by simpa using hq2⟩
          · exact Or.inr h
    | false =>
        simp only [Bool.false_eq_true, if_false]
        rw [ih]
        simp only [List.mem_append, List.map_cons, List.mem_cons]
        constructor
        · rintro (⟨q, hq, hq2⟩ | h)
          · rcases hq with hq | hq | hq
            · exact Or.inl ⟨q, hq, hq2⟩
            · subst hq
              exact Or.inr (Or.inl hq2.symm)
            · exact absurd hq (List.not_mem_nil q)
          · exact Or.inr (Or.inr h)
        · rintro (⟨q, hq, hq2⟩ | h | h)
          · exact Or.inl ⟨q, Or.inl hq, hq2⟩
          · exact Or.inl ⟨_, Or.inr (Or.inl rfl), h.symm⟩
          · exact Or.inr h

theorem bulkLoop_nodup : ∀ (batch : List ProductData) (sess : Session) (c s : Nat),
    (sess.current.products.map (fun p => p.product_id)).Nodup →
    ((bulkLoop sess batch c s).1.current.products.map
      (fun p => p.product_id)).Nodup := by
  intro batch
  induction batch with
  | nil => intro sess c s h; simpa [bulkLoop] using h
  | cons d rest ih =>
    intro sess c s h
    unfold bulkLoop
    cases hex : productExists sess.current d.product_id with
    | true => simpa using ih sess c (s + 1) h
    | false =>
        simp only [Bool.false_eq_true, if_false]
        apply ih
        simp only [List.map_append, List.map_cons, List.map_nil]
        rw [List.nodup_append]
        refine ⟨h, List.nodup_singleton _, ?_⟩
        intro x hx
        simp only [List.mem_singleton]
        intro hx2
        subst hx2
        unfold productExists at hex
        rw [List.mem_map] at hx
        obtain ⟨q, hq, hq2⟩ := hx
        have : sess.current.products.any
            (fun p => p.product_id == d.product_id) = true := by
          rw [List.any_eq_true]
          exact ⟨q, hq, by simp [hq2]⟩
        rw [hex] at this
        exact Bool.false_ne_true this

/-- Claim C7: `bulk_create_if_not_exists` returns counts summing to the
batch size without raising on duplicates; it only appends rows (never
overwrites), adding exactly `created` rows; afterwards a product id is
present exactly when it was present before or occurs in the batch, and
distinctness of stored product ids is preserved (so the store ends with
exactly the union of the previously present and the batch's distinct
product ids); and it commits exactly once for the whole batch when at
least one insert occurred, and not at all otherwise. -/
theorem bulk_create_if_not_exists_spec (sess : Session) (batch : List ProductData) :
    (bulk_create_if_not_exists sess batch).2.1 +
      (bulk_create_if_not_exists sess batch).2.2 = batch.length ∧
    (∃ added, (bulk_create_if_not_exists sess batch).1.current.products =
      sess.current.products ++ added ∧
      added.length = (bulk_create_if_not_exists sess batch).2.1) ∧
    (∀ pid : String,
      (∃ q ∈ (bulk_create_if_not_exists sess batch).1.current.products,
        q.product_id = pid) ↔
      ((∃ q ∈ sess.current.products, q.product_id = pid) ∨
        pid ∈ batch.map (fun d => d.product_id))) ∧
    ((sess.current.products.map (fun p => p.product_id)).Nodup →
      ((bulk_create_if_not_exists sess batch).1.current.products.map
        (fun p => p.product_id)).Nodup) ∧
    (bulk_create_if_not_exists sess batch).1.commitCount =
      sess.commitCount +
        (if 0 < (bulk_create_if_not_exists sess batch).2.1 then 1 else 0) ∧
    (0 < (bulk_create_if_not_exists sess batch).2.1 →
      (bulk_create_if_not_exists sess batch).1.committed =
        (bulk_create_if_not_exists sess batch).1.current) ∧
    ((bulk_create_if_not_exists sess batch).2.1 = 0 →
      (bulk_create_if_not_exists sess batch).1.committed = sess.committed) := by
  have hcounts := bulkLoop_counts batch sess 0 0
  have hnc := bulkLoop_no_commit batch sess 0 0
  have hprod := bulkLoop_products batch sess 0 0
  have hpres := bulkLoop_presence batch sess 0 0
  have hnd := bulkLoop_nodup batch sess 0 0
  have hc1 : (bulk_create_if_not_exists sess batch).2.1 =
      (bulkLoop sess batch 0 0).2.1 := rfl
  have hc2 : (bulk_create_if_not_exists sess batch).2.2 =
      (bulkLoop sess batch 0 0).2.2 := rfl
  have hS : (bulk_create_if_not_exists sess batch).1 =
      (if 0 < (bulkLoop sess batch 0 0).2.1 then (bulkLoop sess batch 0 0).1.commit
       else (bulkLoop sess batch 0 0).1) := rfl
  rw [hc1, hc2, hS]
  obtain ⟨added, h1, h2⟩ := hprod
  by_cases hpos : 0 < (bulkLoop sess batch 0 0).2.1
  · rw [if_pos hpos]
    refine ⟨by omega, ⟨added, by simpa [Session.commit] using h1, by omega⟩,
      ?_, ?_, ?_, fun _ => rfl, fun h0 => absurd hpos (by omega)⟩
    · intro pid
      simpa [Session.commit] using hpres pid
    · intro h
      simpa [Session.commit] using hnd h
    · simp [Session.commit, hnc.1, hpos]
  · rw [if_neg hpos]
    refine ⟨by omega, ⟨added, by simpa using h1, by omega⟩,
      ?_, ?_, ?_, fun h => absurd h hpos, fun _ => hnc.2⟩
    · intro pid
      simpa using hpres pid
    · intro h
      simpa using hnd h
    · simp [hnc.1, hpos]

/-- Witness for C7: a batch with one pre-existing and one new product id
on the concrete store. -/
theorem bulk_create_if_not_exists_spec_witness :
    ((exSess exDsPending []).current.products.map
      (fun p => p.product_id)).Nodup ∧
    ((bulk_create_if_not_exists (exSess exDsPending []) exBatch).1.current.products.map
      (fun p => p.product_id)).Nodup ∧
    (bulk_create_if_not_exists (exSess exDsPending []) exBatch).2.1 +
      (bulk_create_if_not_exists (exSess exDsPending []) exBatch).2.2 =
      exBatch.length := by
  refine ⟨by decide, ?_, (bulk_create_if_not_exists_spec (exSess exDsPending [])
    exBatch).1⟩
  exact (bulk_create_if_not_exists_spec (exSess exDsPending []) exBatch).2.2.2.1
    (by decide)

/-! ## Reachability invariant machinery (claim C2) -/

/-- Per-row invariant: a row whose status records a completed download
(`downloaded`, `processing` or `processed`) has a non-null
`local_path`. -/
def RowOk (r : DownloadStatusRow) : Prop :=
  (r.status = "downloaded" ∨ r.status = "processing" ∨ r.status = "processed") →
  r.local_path ≠ none

/-- The row invariant over a whole store. -/
def StoreOk (st : Store) : Prop := ∀ r ∈ st.downloadStatuses, RowOk r

/-- Schema well-formedness of the `download_status` table: primary keys
are unique and below the autoincrement counter. -/
def StoreWF (st : Store) : Prop :=
  NodupIds st.downloadStatuses ∧
  ∀ r ∈ st.downloadStatuses, r.id < st.nextDownloadStatusId

/-- The session invariant carried through every operation. -/
def SessionInv (s : Session) : Prop :=
  StoreOk s.current ∧ StoreOk s.committed ∧ StoreWF s.current ∧ StoreWF s.committed

theorem SessionInv.commit {s : Session} (h : SessionInv s) : SessionInv s.commit :=
  ⟨h.1, h.1, h.2.2.1, h.2.2.1⟩

theorem SessionInv.rollback {s : Session} (h : SessionInv s) : SessionInv s.rollback :=
  ⟨h.2.1, h.2.1, h.2.2.2, h.2.2.2⟩

theorem StoreOk_updateRow_found (st : Store) (i : Nat)
    (f : DownloadStatusRow → DownloadStatusRow) (r0 : DownloadStatusRow)
    (hfind : findDownloadById st i = some r0)
    (hnd : NodupIds st.downloadStatuses)
    (hok : RowOk (f r0)) (h : StoreOk st) : StoreOk (updateDownloadRow st i f) := by
  intro r' hr'
  unfold updateDownloadRow at hr'
  simp only [List.mem_map] at hr'
  obtain ⟨x, hx, hx'⟩ := hr'
  subst hx'
  by_cases hxi : x.id = i
  · have hx0 : x = r0 := by
      have h1 : findDownloadById st x.id = some x := findDownloadById_of_mem st x hx hnd
      rw [hxi, hfind] at h1
      exact (Option.some.inj h1).symm
    subst hx0
    simpa [hxi] using hok
  · simpa [hxi] using h x hx

theorem StoreWF_updateRow (st : Store) (i : Nat)
    (f : DownloadStatusRow → DownloadStatusRow)
    (hf : ∀ r, r.id = i → (f r).id = r.id)
    (h : StoreWF st) : StoreWF (updateDownloadRow st i f) := by
  have hids : (updateDownloadRow st i f).downloadStatuses.map (fun r => r.id) =
      st.downloadStatuses.map (fun r => r.id) := by
    unfold updateDownloadRow
    simp only [List.map_map]
    apply List.map_congr_left
    intro x _
    by_cases hxi : x.id = i
    · simp [hxi, hf x hxi]
    · simp [hxi]
  constructor
  · unfold NodupIds
    rw [hids]
    exact h.1
  · intro r hr
    unfold updateDownloadRow at hr
    simp only [List.mem_map] at hr
    obtain ⟨x, hx, hx'⟩ := hr
    subst hx'
    by_cases hxi : x.id = i
    · simp only [hxi]
      have := h.2 x hx
      simpa [hf x hxi, hxi] using this
    · simpa [hxi] using h.2 x hx

theorem update_status_inv (sess : Session) (sid : Nat) (a : UpdateStatusArgs)
    (h : SessionInv sess) (hok : ∀ r, RowOk r → RowOk (applyUpdate a r)) :
    SessionInv (update_status sess sid a).1 := by
  unfold update_status update_status_core
  cases hfind : findDownloadById sess.current sid with
  | none => exact h
  | some r0 =>
    have hr0 : r0 ∈ sess.current.downloadStatuses := by
      unfold findDownloadById at hfind
      exact List.mem_of_find?_eq_some hfind
    have hid0 : r0.id = sid := by
      unfold findDownloadById at hfind
      have := List.find?_some hfind
      simpa using this
    have hcur : StoreOk (updateDownloadRow sess.current sid
        (fun _ => applyUpdate a r0)) :=
      StoreOk_updateRow_found sess.current sid _ r0 hfind h.2.2.1.1
        (hok r0 (h.1 r0 hr0)) h.1
    have hwf : StoreWF (updateDownloadRow sess.current sid
        (fun _ => applyUpdate a r0)) :=
      StoreWF_updateRow sess.current sid _
        (fun r hr => by
          have hax : (applyUpdate a r0).id = r0.id := rfl
          rw [hax, hid0, hr]) h.2.2.1
    exact ⟨hcur, hcur, hwf, hwf⟩

theorem update_status_core_false_inv (sess : Session) (sid : Nat)
    (a : UpdateStatusArgs) (h : SessionInv sess)
    (hok : ∀ r, RowOk r → RowOk (applyUpdate a r)) :
    SessionInv (update_status_core false sess sid a).1 := by
  unfold update_status_core
  cases hfind : findDownloadById sess.current sid with
  | none => exact h
  | some r0 =>
    have hr0 : r0 ∈ sess.current.downloadStatuses := by
      unfold findDownloadById at hfind
      exact List.mem_of_find?_eq_some hfind
    have hid0 : r0.id = sid := by
      unfold findDownloadById at hfind
      have := List.find?_some hfind
      simpa using this
    have hcur : StoreOk (updateDownloadRow sess.current sid
        (fun _ => applyUpdate a r0)) :=
      StoreOk_updateRow_found sess.current sid _ r0 hfind h.2.2.1.1
        (hok r0 (h.1 r0 hr0)) h.1
    have hwf : StoreWF (updateDownloadRow sess.current sid
        (fun _ => applyUpdate a r0)) :=
      StoreWF_updateRow sess.current sid _
        (fun r hr => by
          have hax : (applyUpdate a r0).id = r0.id := rfl
          rw [hax, hid0, hr]) h.2.2.1
    exact ⟨hcur, h.2.1, hwf, h.2.2.2⟩

theorem RowOk_failed (a : UpdateStatusArgs) (hst : a.status = some "failed")
    (r : DownloadStatusRow) : RowOk (applyUpdate a r) := by
  intro hs
  rcases hs with hs | hs | hs <;>
    simp [applyUpdate, hst] at hs

theorem download_failure_update_inv (env : DownloadEnv) (sess : Session)
    (dsid : Nat) (n m : String) (h : SessionInv sess) :
    SessionInv (download_failure_update env sess dsid n m).1 := by
  unfold download_failure_update
  cases hfind : findDownloadById sess.current dsid with
  | none => exact h
  | some r0 =>
    cases hsec : env.secondaryCommitOk with
    | true =>
        have hinv := update_status_inv sess dsid
          { status := some "failed", error_msg := some (n ++ ": " ++ m),
            retry_count := some (r0.retry_count + 1), download_end := some env.now2 }
          h (fun r _ => RowOk_failed _ rfl r)
        have hres : (update_status_core true sess dsid
            { status := some "failed", error_msg := some (n ++ ": " ++ m),
              retry_count := some (r0.retry_count + 1),
              download_end := some env.now2 }).2 =
            Except.ok (applyUpdate
              { status := some "failed", error_msg := some (n ++ ": " ++ m),
                retry_count := some (r0.retry_count + 1),
                download_end := some env.now2 } r0) := by
          unfold update_status_core
          rw [hfind]
          rfl
        simp only [hres]
        exact hinv.commit
    | false =>
        have hinv := update_status_core_false_inv sess dsid
          { status := some "failed", error_msg := some (n ++ ": " ++ m),
            retry_count := some (r0.retry_count + 1), download_end := some env.now2 }
          h (fun r _ => RowOk_failed _ rfl r)
        have hres : (update_status_core false sess dsid
            { status := some "failed", error_msg := some (n ++ ": " ++ m),
              retry_count := some (r0.retry_count + 1),
              download_end := some env.now2 }).2 =
            Except.error "commit failed" := by
          unfold update_status_core
          rw [hfind]
          rfl
        simp only [hres]
        exact hinv

theorem RowOk_keep (a : UpdateStatusArgs) (hs : a.status = none)
    (hl : a.local_path = none) (r : DownloadStatusRow) (h : RowOk r) :
    RowOk (applyUpdate a r) := by
  intro hcase
  have hst : (applyUpdate a r).status = r.status := by simp [applyUpdate, hs]
  rw [hst] at hcase
  have h2 := h hcase
  simpa [applyUpdate, hl, pickField] using h2

theorem RowOk_success (a : UpdateStatusArgs) (p : String)
    (hl : a.local_path = some p) (r : DownloadStatusRow) :
    RowOk (applyUpdate a r) := by
  intro _
  simp [applyUpdate, hl, pickField]

theorem SessionInv_create_generic (sess : Session) (row : DownloadStatusRow)
    (hst : row.status = "pending")
    (hid : row.id = sess.current.nextDownloadStatusId)
    (h : SessionInv sess) :
    SessionInv (Session.commit { sess with current := { sess.current with downloadStatuses := sess.current.downloadStatuses ++ [row], nextDownloadStatusId := sess.current.nextDownloadStatusId + 1 } }) := by
  have hok : ∀ r, r ∈ sess.current.downloadStatuses ++ [row] → RowOk r := by
    intro r hr
    rw [List.mem_append] at hr
    rcases hr with hr | hr
    · exact h.1 r hr
    · have hr' : r = row := by simpa using hr
      subst hr'
      intro hcase
      rw [hst] at hcase
      rcases hcase with hc | hc | hc <;> simp at hc
  have hnd : ((sess.current.downloadStatuses ++ [row]).map (fun r => r.id)).Nodup := by
    rw [List.map_append, List.map_cons, List.map_nil, List.nodup_append]
    refine ⟨h.2.2.1.1, List.nodup_singleton _, ?_⟩
    intro x hx
    simp only [List.mem_singleton]
    intro hx2
    rw [List.mem_map] at hx
    obtain ⟨q, hq, hq2⟩ := hx
    have := h.2.2.1.2 q hq
    omega
  have hbound : ∀ r, r ∈ sess.current.downloadStatuses ++ [row] →
      r.id < sess.current.nextDownloadStatusId + 1 := by
    intro r hr
    rw [List.mem_append] at hr
    rcases hr with hr | hr
    · have := h.2.2.1.2 r hr
      omega
    · have hr' : r = row := by simpa using hr
      subst hr'
      omega
  have hwf : StoreWF { sess.current with downloadStatuses := sess.current.downloadStatuses ++ [row], nextDownloadStatusId := sess.current.nextDownloadStatusId + 1 } :=
    ⟨hnd, hbound⟩
  have hso : StoreOk { sess.current with downloadStatuses := sess.current.downloadStatuses ++ [row], nextDownloadStatusId := sess.current.nextDownloadStatusId + 1 } :=
    hok
  exact ⟨hso, hso, hwf, hwf⟩

theorem downloadStatusRepo_create_inv (sess : Session) (pid : Nat)
    (h : SessionInv sess) :
    SessionInv (downloadStatusRepo_create sess pid "pending").1 :=
  SessionInv_create_generic sess _ rfl rfl h

/-- `download_product` preserves the session invariant, for every
environment and argument. -/
theorem download_product_inv (env : DownloadEnv) (sess : Session) (pid : Nat)
    (dir : String) (h : SessionInv sess) :
    SessionInv (download_product env sess pid dir).1 := by
  unfold download_product
  cases hP : findProduct sess.current pid with
  | none => exact h
  | some product =>
    simp only []
    cases hD : findDownloadByProduct sess.current product.id with
    | some ds =>
      simp only []
      cases hsc : (ds.status == "downloaded" && ds.local_path.isSome) with
      | true => simpa [hsc] using h
      | false =>
        simp only [hsc, Bool.false_eq_true, if_false]
        have h2 : SessionInv
            ((update_status sess ds.id { download_start := some env.now1 }).1.commit) :=
          (update_status_inv sess ds.id _ h (RowOk_keep _ rfl rfl)).commit
        split
        · exact download_failure_update_inv _ _ _ _ _ h2
        · split
          · exact download_failure_update_inv _ _ _ _ _ h2
          · exact download_failure_update_inv _ _ _ _ _ h2
          · split
            · exact download_failure_update_inv _ _ _ _ _ h2
            · exact (update_status_inv _ ds.id _ h2
                (fun r _ => RowOk_success _ _ rfl r)).commit
    | none =>
      simp only []
      have hC : SessionInv (downloadStatusRepo_create sess product.id "pending").1 :=
        downloadStatusRepo_create_inv sess product.id h
      have hrow : (downloadStatusRepo_create sess product.id "pending").2.status =
          "pending" := rfl
      have hsc : ((downloadStatusRepo_create sess product.id "pending").2.status ==
          "downloaded" && (downloadStatusRepo_create sess
            product.id "pending").2.local_path.isSome) = false := by
        rw [hrow]
        simp
      simp only [hsc, Bool.false_eq_true, if_false]
      have h2 : SessionInv ((update_status
          (downloadStatusRepo_create sess product.id "pending").1
          (downloadStatusRepo_create sess product.id "pending").2.id
          { download_start := some env.now1 }).1.commit) :=
        (update_status_inv _ _ _ hC (RowOk_keep _ rfl rfl)).commit
      split
      · exact download_failure_update_inv _ _ _ _ _ h2
      · split
        · exact download_failure_update_inv _ _ _ _ _ h2
        · exact download_failure_update_inv _ _ _ _ _ h2
        · split
          · exact download_failure_update_inv _ _ _ _ _ h2
          · exact (update_status_inv _ _ _ h2
              (fun r _ => RowOk_success _ _ rfl r)).commit

theorem snowMaskRepo_create_inv (sess : Session) (pidN : Nat) (t : ℚ)
    (sp tp : Nat) (pct : ℚ) (mp : Option String) (now : Nat) (h : SessionInv sess) :
    SessionInv (snowMaskRepo_create sess pidN t sp tp pct mp now).1 := by
  unfold snowMaskRepo_create
  cases hdup : snowMaskExists sess.current pidN t with
  | true =>
      simp only [hdup, if_true]
      exact ⟨h.1, h.2.1, h.2.2.1, h.2.2.2⟩
  | false =>
      simp only [hdup, Bool.false_eq_true, if_false]
      exact SessionInv.commit ⟨h.1, h.2.1, h.2.2.1, h.2.2.2⟩

theorem snowMaskRepo_create_rows (sess : Session) (pidN : Nat) (t : ℚ)
    (sp tp : Nat) (pct : ℚ) (mp : Option String) (now : Nat) :
    (snowMaskRepo_create sess pidN t sp tp pct mp now).1.current.downloadStatuses =
      sess.current.downloadStatuses := by
  unfold snowMaskRepo_create
  cases hdup : snowMaskExists sess.current pidN t with
  | true => simp only [hdup, if_true]
  | false => simp only [hdup, Bool.false_eq_true, if_false]; rfl

theorem SessionInv_mark_processed (sessB : Session) (dsid : Nat)
    (h : SessionInv sessB)
    (hpath : ∀ r0, findDownloadById sessB.current dsid = some r0 →
      r0.local_path ≠ none) :
    SessionInv (Session.commit { sessB with current := updateDownloadRow sessB.current dsid (fun r => { r with status := "processed" }) }) := by
  cases hfind : findDownloadById sessB.current dsid with
  | none =>
      have hnone : ∀ x ∈ sessB.current.downloadStatuses, ¬(x.id = dsid) := by
        intro x hx hxid
        unfold findDownloadById at hfind
        rw [List.find?_eq_none] at hfind
        exact absurd (by simp [hxid]) (hfind x hx)
      have heq : updateDownloadRow sessB.current dsid
          (fun r => { r with status := "processed" }) = sessB.current := by
        unfold updateDownloadRow
        cases hcur : sessB.current with
        | mk aois products downloadStatuses snowMasks nP nD nS =>
          simp only [Store.mk.injEq, and_true, true_and]
          refine List.map_congr_left ?_ |>.trans (List.map_id _)
          intro x hx
          have := hnone x (by rw [hcur]; exact hx)
          simp [this]
      rw [heq]
      exact SessionInv.commit ⟨h.1, h.2.1, h.2.2.1, h.2.2.2⟩
  | some r0 =>
      have hok : RowOk { r0 with status := "processed" } := by
        intro _
        simpa using hpath r0 hfind
      have hcur : StoreOk (updateDownloadRow sessB.current dsid
          (fun r => { r with status := "processed" })) :=
        StoreOk_updateRow_found sessB.current dsid _ r0 hfind h.2.2.1.1 hok h.1
      have hwf : StoreWF (updateDownloadRow sessB.current dsid
          (fun r => { r with status := "processed" })) :=
        StoreWF_updateRow sessB.current dsid _ (fun r _ => rfl) h.2.2.1
      exact SessionInv.commit ⟨hcur, h.2.1, hwf, h.2.2.2⟩

/-- `process_product_snow_mask` preserves the session invariant, for
every environment and argument. -/
theorem process_product_snow_mask_inv (env : SnowEnv) (sess : Session)
    (pid : Nat) (t : ℚ) (sm : Bool) (h : SessionInv sess) :
    SessionInv (process_product_snow_mask env sess pid t sm).1 := by
  unfold process_product_snow_mask
  cases hP : findProduct sess.current pid with
  | none => exact h
  | some product =>
    simp only []
    cases hD : findDownloadByProduct sess.current pid with
    | none => exact h
    | some ds =>
      simp only []
      by_cases hst : ds.status ≠ "downloaded"
      · simp only [if_pos hst]
        exact h
      · simp only [if_neg hst]
        push_neg at hst
        cases hA : findAOI sess.current product.aoi_id with
        | none => exact h
        | some aoi =>
          simp only []
          have hmem : ds ∈ sess.current.downloadStatuses :=
            List.mem_of_find?_eq_some hD
          have hid : findDownloadById sess.current ds.id = some ds :=
            findDownloadById_of_mem _ _ hmem h.2.2.1.1
          have hpath : ds.local_path ≠ none := h.1 ds hmem (Or.inl hst)
          have hok1 : RowOk { ds with status := "processing" } := by
            intro _
            simpa using hpath
          have hcur1 : StoreOk (updateDownloadRow sess.current ds.id
              (fun r => { r with status := "processing" })) :=
            StoreOk_updateRow_found sess.current ds.id _ ds hid h.2.2.1.1 hok1 h.1
          have hwf1 : StoreWF (updateDownloadRow sess.current ds.id
              (fun r => { r with status := "processing" })) :=
            StoreWF_updateRow sess.current ds.id _ (fun r _ => rfl) h.2.2.1
          have h2 : SessionInv (Session.commit { sess with current := updateDownloadRow sess.current ds.id (fun r => { r with status := "processing" }) }) :=
            SessionInv.commit ⟨hcur1, h.2.1, hwf1, h.2.2.2⟩
          have hfind2 : findDownloadById (updateDownloadRow sess.current ds.id
              (fun r => { r with status := "processing" })) ds.id =
              some { ds with status := "processing" } := by
            rw [findDownloadById_updateRow sess.current ds.id ds.id
              (fun r => { r with status := "processing" }) (fun r _ => rfl), hid]
            simp
          cases hlp : ds.local_path with
          | none => exact h2.rollback
          | some p =>
            simp only []
            cases hread : env.read with
            | fileNotFound m => exact h2.rollback
            | invalidBand m => exact h2.rollback
            | ok g s =>
              simp only []
              split
              · exact h2.rollback
              · split
                · exact h2.rollback
                · split
                  · exact (snowMaskRepo_create_inv _ _ _ _ _ _ _ _ h2).rollback
                  · refine SessionInv_mark_processed _ ds.id
                      (snowMaskRepo_create_inv _ _ _ _ _ _ _ _ h2) ?_
                    intro r0 hr0
                    unfold findDownloadById at hr0
                    rw [snowMaskRepo_create_rows] at hr0
                    have : findDownloadById (Session.commit { sess with current := updateDownloadRow sess.current ds.id (fun r => { r with status := "processing" }) }).current ds.id = some r0 := hr0
                    rw [show (Session.commit { sess with current := updateDownloadRow sess.current ds.id (fun r => { r with status := "processing" }) }).current = updateDownloadRow sess.current ds.id (fun r => { r with status := "processing" }) from rfl] at this
                    rw [hfind2] at this
                    have hr0' := Option.some.inj this
                    subst hr0'
                    simpa using hpath

theorem downloadLoop_inv (envOf : Nat → DownloadEnv) (dir : String) :
    ∀ (l : List DownloadStatusRow) (i : Nat) (sess : Session) (stats : BatchStats),
      SessionInv sess → SessionInv (downloadLoop envOf dir l i sess stats).1 := by
  intro l
  induction l with
  | nil => intro i sess stats h; exact h
  | cons d rest ih =>
    intro i sess stats h
    unfold downloadLoop
    exact ih (i + 1) _ _ (download_product_inv (envOf i) sess d.product_id dir h)

theorem processLoop_inv (envOf : Nat → SnowEnv) (t : ℚ) (sm : Bool) :
    ∀ (l : List DownloadStatusRow) (i : Nat) (sess : Session) (stats : BatchStats),
      SessionInv sess → SessionInv (processLoop envOf t sm l i sess stats).1 := by
  intro l
  induction l with
  | nil => intro i sess stats h; exact h
  | cons d rest ih =>
    intro i sess stats h
    unfold processLoop
    exact ih (i + 1) _ _ (process_product_snow_mask_inv (envOf i) sess d.product_id t sm h)

theorem download_pending_products_inv (envOf : Nat → DownloadEnv) (sess : Session)
    (limit mr : Option Nat) (dir : String) (h : SessionInv sess) :
    SessionInv (download_pending_products envOf sess limit mr dir).1 := by
  unfold download_pending_products
  exact downloadLoop_inv envOf dir _ 0 sess _ h

theorem process_downloaded_products_inv (envOf : Nat → SnowEnv) (sess : Session)
    (t : ℚ) (sm : Bool) (limit : Option Nat) (h : SessionInv sess) :
    SessionInv (process_downloaded_products envOf sess t sm limit).1 := by
  unfold process_downloaded_products
  exact processLoop_inv envOf t sm _ 0 sess _ h

/-- Store states reachable from `init` by the public operations of
`download.py` and `snow_mask.py` (single-scene workflows and the two
batch drivers), with arbitrary environments and arguments at every
step. -/
inductive Reachable : Session → Session → Prop where
  | refl (s : Session) : Reachable s s
  | download (env : DownloadEnv) (pid : Nat) (dir : String) {s s' : Session} :
      Reachable s s' → Reachable s (download_product env s' pid dir).1
  | process (env : SnowEnv) (pid : Nat) (t : ℚ) (sm : Bool) {s s' : Session} :
      Reachable s s' → Reachable s (process_product_snow_mask env s' pid t sm).1
  | downloadBatch (envOf : Nat → DownloadEnv) (limit mr : Option Nat)
      (dir : String) {s s' : Session} :
      Reachable s s' → Reachable s (download_pending_products envOf s' limit mr dir).1
  | processBatch (envOf : Nat → SnowEnv) (t : ℚ) (sm : Bool) (limit : Option Nat)
      {s s' : Session} :
      Reachable s s' → Reachable s (process_downloaded_products envOf s' t sm limit).1

/-- A fully committed session whose `DownloadStatus` rows are all
freshly created: `pending` with no `local_path` (and schema-valid
primary keys). -/
def FreshSession (s : Session) : Prop :=
  s.current = s.committed ∧
  (∀ r ∈ s.current.downloadStatuses, r.status = "pending" ∧ r.local_path = none) ∧
  StoreWF s.current

theorem FreshSession.inv {s : Session} (h : FreshSession s) : SessionInv s := by
  have hok : StoreOk s.current := by
    intro r hr hcase
    have := (h.2.1 r hr).1
    rcases hcase with hc | hc | hc <;> rw [this] at hc <;> simp at hc
  refine ⟨hok, ?_, h.2.2, ?_⟩
  · rw [← h.1]
    exact hok
  · rw [← h.1]
    exact h.2.2

theorem reachable_inv {init s : Session} (hr : Reachable init s)
    (h : SessionInv init) : SessionInv s := by
  induction hr with
  | refl => exact h
  | download env pid dir _ ih => exact download_product_inv env _ pid dir (ih h)
  | process env pid t sm _ ih =>
      exact process_product_snow_mask_inv env _ pid t sm (ih h)
  | downloadBatch envOf limit mr dir _ ih =>
      exact download_pending_products_inv envOf _ limit mr dir (ih h)
  | processBatch envOf t sm limit _ ih =>
      exact process_downloaded_products_inv envOf _ t sm limit (ih h)

/-! ## Claim C2: the local_path / status invariant -/

/-- The session after a successful download of the concrete pending
scene. -/
def c2sess1 : Session :=
  (download_product envFetchOk (exSess exDsPending []) 1 "data/sentinel2").1

/-- The path written by that download. -/
def c2fp : String :=
  get_output_path "S2A_X" "ben_nevis" { year := 2024, month := 1 } "data/sentinel2"

/-- The status row after that download. -/
def c2row1 : DownloadStatusRow := successRow envFetchOk exDsPending c2fp

/-- The session after a subsequent snow-mask run whose raster read
fails: the `processing` status stays committed. -/
def c2sess2 : Session :=
  (process_product_snow_mask envReadFail c2sess1 1 (2/5) true).1

/-- The committed status row of `c2sess2`. -/
def c2row2 : DownloadStatusRow := { c2row1 with status := "processing" }

/-- The session after a further failed re-download of the same scene. -/
def c2sess3 : Session :=
  (download_product envFetchFail c2sess2 1 "data/sentinel2").1

/-- Counterexample to C2 as stated: from a freshly created `pending`
row, a successful download followed by a snow-mask run whose read fails
reaches a committed store whose row has a non-null `local_path` but
status `processing` — violating the claimed "non-null iff `downloaded`
or `processed`"; a further failed re-download reaches a row with a
non-null `local_path` and status `failed`, so even adding `processing`
to the right-hand side of the iff would not repair the equivalence. -/
theorem local_path_iff_counterexample :
    FreshSession (exSess exDsPending []) ∧
    Reachable (exSess exDsPending []) c2sess2 ∧
    (∃ r ∈ c2sess2.committed.downloadStatuses, r.local_path ≠ none ∧
      ¬(r.status = "downloaded" ∨ r.status = "processed")) ∧
    Reachable (exSess exDsPending []) c2sess3 ∧
    (∃ r ∈ c2sess3.committed.downloadStatuses, r.local_path ≠ none ∧
      r.status = "failed") := by
  refine ⟨⟨rfl, by decide, by decide, by decide⟩, ?_, ?_, ?_, ?_⟩
  · exact Reachable.process envReadFail 1 (2/5) true
      (Reachable.download envFetchOk 1 "data/sentinel2" (Reachable.refl _))
  · refine ⟨c2row2, ?_, by decide, by decide⟩
    have hfind : findDownloadById c2sess2.committed 1 = some c2row2 := rfl
    unfold findDownloadById at hfind
    exact List.mem_of_find?_eq_some hfind
  · exact Reachable.download envFetchFail 1 "data/sentinel2"
      (Reachable.process envReadFail 1 (2/5) true
        (Reachable.download envFetchOk 1 "data/sentinel2" (Reachable.refl _)))
  · refine ⟨failedRow envFetchFail c2row2 ("ConnectionError" ++ ": " ++ "boom"),
      ?_, by decide, by decide⟩
    have hfind : findDownloadById c2sess3.committed 1 =
        some (failedRow envFetchFail c2row2 ("ConnectionError" ++ ": " ++ "boom")) := rfl
    unfold findDownloadById at hfind
    exact List.mem_of_find?_eq_some hfind

/-- Claim C2 as amended: in every store state reachable by the
operations of `download.py` and `snow_mask.py` from freshly created
`pending` rows, a row whose status is `downloaded`, `processing` or
`processed` has a non-null `local_path` (in the session view and in the
durably committed store).  The converse direction of the original iff
is false: `processing` and `failed` rows can retain the `local_path` of
an earlier successful download (see the counterexample). -/
theorem local_path_status_invariant (init s : Session)
    (hfresh : FreshSession init) (hr : Reachable init s) :
    (∀ r ∈ s.current.downloadStatuses,
      (r.status = "downloaded" ∨ r.status = "processing" ∨ r.status = "processed") →
      r.local_path ≠ none) ∧
    (∀ r ∈ s.committed.downloadStatuses,
      (r.status = "downloaded" ∨ r.status = "processing" ∨ r.status = "processed") →
      r.local_path ≠ none) := by
  have h := reachable_inv hr hfresh.inv
  exact ⟨h.1, h.2.1⟩

/-- Witness for the amended C2, instantiated on the concrete fresh
store and the reachable state `c2sess2`. -/
theorem local_path_status_invariant_witness :
    (∀ r ∈ c2sess2.current.downloadStatuses,
      (r.status = "downloaded" ∨ r.status = "processing" ∨ r.status = "processed") →
      r.local_path ≠ none) ∧
    (∀ r ∈ c2sess2.committed.downloadStatuses,
      (r.status = "downloaded" ∨ r.status = "processing" ∨ r.status = "processed") →
      r.local_path ≠ none) :=
  local_path_status_invariant (exSess exDsPending []) c2sess2
    ⟨rfl, by decide, by decide, by decide⟩
    (Reachable.process envReadFail 1 (2/5) true
      (Reachable.download envFetchOk 1 "data/sentinel2" (Reachable.refl _)))

/-! ## Claim C3: the skipped counter of the download batch driver -/

/-- The snapshot of rows the batch driver iterates over: the
`status = 'pending'` rows, truncated to `limit` when given. -/
def pendingSnapshot (sess : Session) (limit : Option Nat) : List DownloadStatusRow :=
  let pending := sess.current.downloadStatuses.filter (fun d => d.status == "pending")
  match limit with
  | none => pending
  | some n => pending.take n

theorem download_pending_products_eq (envOf : Nat → DownloadEnv) (sess : Session)
    (limit mr : Option Nat) (dir : String) :
    download_pending_products envOf sess limit mr dir =
      downloadLoop envOf dir (pendingSnapshot sess limit) 0 sess
        { success := 0, failed := 0, skipped := 0 } := rfl

/-- How one scene's outcome is tallied by the batch driver. -/
inductive Tally where
  | success : Tally
  | failed : Tally
  | skipped : Tally
deriving Repr, DecidableEq

/-- The tally the driver assigns to a `download_product` result. -/
def tallyOf (r : DPResult) : Tally :=
  if r.ok then (if r.error == none then Tally.success else Tally.skipped)
  else Tally.failed

/-- Whether a `download_product` call on this store would take the
idempotent short-circuit of step 2 (row already `downloaded` with a
non-null `local_path`). -/
def wouldShortCircuit (st : Store) (product_db_id : Nat) : Bool :=
  match findProduct st product_db_id with
  | none => false
  | some product =>
    match findDownloadByProduct st product.id with
    | none => false
    | some ds => ds.status == "downloaded" && ds.local_path.isSome

/-- Replay of the batch loop recording, for each invoked scene, whether
the call took the short-circuit and how it was tallied. -/
def downloadBatchTrace (envOf : Nat → DownloadEnv) (dir : String) :
    List DownloadStatusRow → Nat → Session → List (Bool × Tally)
  | [], _, _ => []
  | d :: rest, i, sess =>
    (wouldShortCircuit sess.current d.product_id,
     tallyOf (download_product (envOf i) sess d.product_id dir).2) ::
      downloadBatchTrace envOf dir rest (i + 1)
        (download_product (envOf i) sess d.product_id dir).1

theorem download_failure_update_res (env : DownloadEnv) (sess : Session)
    (dsid : Nat) (n m : String) :
    (download_failure_update env sess dsid n m).2 =
      { ok := false, error := some (n ++ ": " ++ m), path := none } := rfl

theorem download_product_ok_error (env : DownloadEnv) (sess : Session)
    (pid : Nat) (dir : String) :
    (download_product env sess pid dir).2.ok = true →
    (download_product env sess pid dir).2.error = none := by
  unfold download_product
  cases hP : findProduct sess.current pid with
  | none => intro hc; simp at hc
  | some product =>
    simp only []
    cases hD : findDownloadByProduct sess.current product.id with
    | some ds =>
      simp only []
      cases hsc : (ds.status == "downloaded" && ds.local_path.isSome) with
      | true => intro _; simp [hsc]
      | false =>
        simp only [hsc, Bool.false_eq_true, if_false]
        split
        · rw [download_failure_update_res]
          intro hc
          simp at hc
        · split
          · rw [download_failure_update_res]
            intro hc
            simp at hc
          · rw [download_failure_update_res]
            intro hc
            simp at hc
          · split
            · rw [download_failure_update_res]
              intro hc
              simp at hc
            · intro _
              rfl
    | none =>
      simp only []
      have hsc : ((downloadStatusRepo_create sess product.id "pending").2.status ==
          "downloaded" && (downloadStatusRepo_create sess
            product.id "pending").2.local_path.isSome) = false := by
        have hrow : (downloadStatusRepo_create sess product.id "pending").2.status =
            "pending" := rfl
        rw [hrow]
        simp
      simp only [hsc, Bool.false_eq_true, if_false]
      split
      · rw [download_failure_update_res]
        intro hc
        simp at hc
      · split
        · rw [download_failure_update_res]
          intro hc
          simp at hc
        · rw [download_failure_update_res]
          intro hc
          simp at hc
        · split
          · rw [download_failure_update_res]
            intro hc
            simp at hc
          · intro _
            rfl

theorem download_product_no_skip (env : DownloadEnv) (sess : Session)
    (pid : Nat) (dir : String) :
    tallyOf (download_product env sess pid dir).2 ≠ Tally.skipped := by
  unfold tallyOf
  by_cases hok : (download_product env sess pid dir).2.ok = true
  · rw [if_pos hok, download_product_ok_error env sess pid dir hok]
    simp
  · rw [if_neg hok]
    simp

theorem trace_no_skip (envOf : Nat → DownloadEnv) (dir : String) :
    ∀ (l : List DownloadStatusRow) (i : Nat) (sess : Session),
      ∀ e ∈ downloadBatchTrace envOf dir l i sess, e.2 ≠ Tally.skipped := by
  intro l
  induction l with
  | nil => intro i sess e he; simp [downloadBatchTrace] at he
  | cons d rest ih =>
    intro i sess e he
    unfold downloadBatchTrace at he
    rcases List.mem_cons.mp he with he | he
    · subst he
      exact download_product_no_skip (envOf i) sess d.product_id dir
    · exact ih (i + 1) _ e he

theorem downloadLoop_skipped (envOf : Nat → DownloadEnv) (dir : String) :
    ∀ (l : List DownloadStatusRow) (i : Nat) (sess : Session) (stats : BatchStats),
      (downloadLoop envOf dir l i sess stats).2.skipped =
        stats.skipped + (downloadBatchTrace envOf dir l i sess).countP
          (fun e => e.2 == Tally.skipped) := by
  intro l
  induction l with
  | nil => intro i sess stats; simp [downloadLoop, downloadBatchTrace]
  | cons d rest ih =>
    intro i sess stats
    unfold downloadLoop downloadBatchTrace
    rw [ih, List.countP_cons]
    by_cases hok : (download_product (envOf i) sess d.product_id dir).2.ok = true
    · by_cases herr : (download_product (envOf i) sess d.product_id dir).2.error = none
      · simp [hok, herr, tallyOf]
      · simp [hok, herr, tallyOf]
        omega
    · have hok' : (download_product (envOf i) sess d.product_id dir).2.ok = false :=
        Bool.eq_false_iff.mpr hok
      simp [hok', tallyOf]

theorem download_product_aoi_missing (env : DownloadEnv) (sess : Session)
    (product_db_id : Nat) (output_dir : String) (product : SentinelProductRow)
    (ds : DownloadStatusRow)
    (hP : findProduct sess.current product_db_id = some product)
    (hD : findDownloadByProduct sess.current product.id = some ds)
    (hnd : NodupIds sess.current.downloadStatuses)
    (hshort : (ds.status == "downloaded" && ds.local_path.isSome) = false)
    (hA : findAOI sess.current product.aoi_id = none) :
    (download_product env sess product_db_id output_dir).1.current =
      updateDownloadRow sess.current ds.id
        (fun _ => failedRow env ds
          ("AttributeError" ++ ": " ++ "NoneType object has no attribute name")) := by
  have hmem : ds ∈ sess.current.downloadStatuses := List.mem_of_find?_eq_some hD
  have hid : findDownloadById sess.current ds.id = some ds :=
    findDownloadById_of_mem _ _ hmem hnd
  have hds1 : applyUpdate { download_start := some env.now1 } ds =
      { ds with download_start := some env.now1 } := rfl
  have hid2 : findDownloadById
      (updateDownloadRow sess.current ds.id
        (fun _ => { ds with download_start := some env.now1 })) ds.id =
      some { ds with download_start := some env.now1 } := by
    rw [findDownloadById_updateRow sess.current ds.id ds.id
      (fun _ => { ds with download_start := some env.now1 })
      (fun r hr => hr.symm), hid]
    simp
  have hcomp := updateRow_updateRow sess.current ds.id
    { ds with download_start := some env.now1 }
    (failedRow env ds ("AttributeError" ++ ": " ++ "NoneType object has no attribute name")) rfl
  unfold download_product
  rw [hP]
  cases hsec : env.secondaryCommitOk with
  | true =>
    simp [hD, hshort, update_status, update_status_core, hid, hds1, hid2,
      Session.commit, findAOI_updateRow, hA, hsec, download_failure_update,
      failedRow, applyUpdate, pickField, hcomp, updateRow_updateRow]
  | false =>
    simp [hD, hshort, update_status, update_status_core, hid, hds1, hid2,
      Session.commit, findAOI_updateRow, hA, hsec, download_failure_update,
      failedRow, applyUpdate, pickField, hcomp, updateRow_updateRow]

theorem uniqueRow_of_id (sess : Session) (ds : DownloadStatusRow)
    (hmem : ds ∈ sess.current.downloadStatuses)
    (hnd : NodupIds sess.current.downloadStatuses) :
    ∀ x ∈ sess.current.downloadStatuses, x.id = ds.id → x = ds := by
  intro x hx hxi
  have h1 := findDownloadById_of_mem sess.current x hx hnd
  have h2 := findDownloadById_of_mem sess.current ds hmem hnd
  rw [hxi] at h1
  rw [h1] at h2
  exact Option.some.inj h2

theorem frame_conditions (sess : Session) (ds X : DownloadStatusRow)
    (hmem : ds ∈ sess.current.downloadStatuses)
    (hnd : NodupIds sess.current.downloadStatuses)
    (hXid : X.id = ds.id) (hXpid : X.product_id = ds.product_id) :
    ∀ x ∈ sess.current.downloadStatuses,
      ((fun r => if r.id == ds.id then X else r) x).id = x.id ∧
      ((fun r => if r.id == ds.id then X else r) x).product_id = x.product_id ∧
      (x.product_id ≠ ds.product_id → (fun r => if r.id == ds.id then X else r) x = x) := by
  intro x hx
  by_cases hxi : x.id = ds.id
  · have hxds : x = ds := uniqueRow_of_id sess ds hmem hnd x hx hxi
    subst hxds
    refine ⟨by simp [hXid], by simp [hXpid], fun hne => absurd rfl hne⟩
  · have hb : (x.id == ds.id) = false := by simp [hxi]
    refine ⟨by simp [hb], by simp [hb], fun _ => by simp [hb]⟩

/-- When the invoked scene's product and status row exist,
`download_product` only rewrites rows in place: the resulting row list
is a pointwise map preserving ids and product ids and fixing every row
of a different product. -/
theorem download_product_frame (env : DownloadEnv) (sess : Session) (pid : Nat)
    (dir : String) (product : SentinelProductRow) (ds : DownloadStatusRow)
    (hP : findProduct sess.current pid = some product)
    (hD : findDownloadByProduct sess.current product.id = some ds)
    (hnd : NodupIds sess.current.downloadStatuses) :
    ∃ g : DownloadStatusRow → DownloadStatusRow,
      (download_product env sess pid dir).1.current.downloadStatuses =
        sess.current.downloadStatuses.map g ∧
      ∀ x ∈ sess.current.downloadStatuses,
        (g x).id = x.id ∧ (g x).product_id = x.product_id ∧
        (x.product_id ≠ ds.product_id → g x = x) := by
  have hmem : ds ∈ sess.current.downloadStatuses := List.mem_of_find?_eq_some hD
  cases hsc : (ds.status == "downloaded" && ds.local_path.isSome) with
  | true =>
    have hst : ds.status = "downloaded" := by
      have := (Bool.and_eq_true _ _).mp hsc
      simpa using this.1
    have hsome : ds.local_path.isSome = true := by
      have := (Bool.and_eq_true _ _).mp hsc
      simpa using this.2
    obtain ⟨p, hp⟩ := Option.isSome_iff_exists.mp hsome
    have heq : (download_product env sess pid dir).1 = sess := by
      unfold download_product
      rw [hP]
      simp [hD, hst, hp]
    refine ⟨fun x => x, ?_, ?_⟩
    · rw [heq]
      simp
    · intro x _
      exact ⟨rfl, rfl, fun _ => rfl⟩
  | false =>
    cases hA : findAOI sess.current product.aoi_id with
    | none =>
      have hcur := download_product_aoi_missing env sess pid dir product ds
        hP hD hnd hsc hA
      refine ⟨fun r => if r.id == ds.id then failedRow env ds
        ("AttributeError" ++ ": " ++ "NoneType object has no attribute name")
        else r, ?_, frame_conditions sess ds _ hmem hnd rfl rfl⟩
      rw [hcur]
      rfl
    | some aoi =>
      cases hF : env.fetch with
      | exn n m =>
        obtain ⟨-, hcur, -, -⟩ := download_product_failure env sess pid dir
          product ds aoi n m hP hD hnd hsc hA (Or.inl hF)
        refine ⟨fun r => if r.id == ds.id then failedRow env ds (n ++ ": " ++ m)
          else r, ?_, frame_conditions sess ds _ hmem hnd rfl rfl⟩
        rw [hcur]
        rfl
      | empty =>
        obtain ⟨-, hcur, -, -⟩ := download_product_failure env sess pid dir
          product ds aoi "DownloadError"
          ("No data returned for product " ++ product.product_id)
          hP hD hnd hsc hA (Or.inr (Or.inr ⟨hF, rfl, rfl⟩))
        refine ⟨fun r => if r.id == ds.id then failedRow env ds
          ("DownloadError" ++ ": " ++ ("No data returned for product " ++ product.product_id))
          else r, ?_, frame_conditions sess ds _ hmem hnd rfl rfl⟩
        rw [hcur]
        rfl
      | ok =>
        cases hW : env.write with
        | some nm =>
          obtain ⟨-, hcur, -, -⟩ := download_product_failure env sess pid dir
            product ds aoi nm.1 nm.2 hP hD hnd hsc hA
            (Or.inr (Or.inl ⟨hF, by simpa using hW⟩))
          refine ⟨fun r => if r.id == ds.id then failedRow env ds (nm.1 ++ ": " ++ nm.2)
            else r, ?_, frame_conditions sess ds _ hmem hnd rfl rfl⟩
          rw [hcur]
          rfl
        | none =>
          obtain ⟨-, hcur, -⟩ := download_product_success env sess pid dir
            product ds aoi hP hD hnd hsc hA hF hW
          refine ⟨fun r => if r.id == ds.id then successRow env ds
            (get_output_path product.product_id aoi.name product.acquisition_dt dir)
            else r, ?_, frame_conditions sess ds _ hmem hnd rfl rfl⟩
          rw [hcur]
          rfl

theorem pendingSnapshot_sublist (sess : Session) (limit : Option Nat) :
    List.Sublist (pendingSnapshot sess limit)
      (sess.current.downloadStatuses.filter (fun d => d.status == "pending")) := by
  cases limit with
  | none => exact List.Sublist.refl _
  | some n => exact List.take_sublist _ _

/-- If every snapshot row is a `pending` member of the store and both
schema uniqueness constraints (on `id` and on `product_id`) hold, no
iteration of the batch loop ever takes the idempotent short-circuit:
the invoked row is the snapshot row itself, still `pending`, because
earlier iterations only rewrote rows of other products. -/
theorem trace_no_short_circuit (envOf : Nat → DownloadEnv) (dir : String) :
    ∀ (l : List DownloadStatusRow) (i : Nat) (sess : Session),
      NodupIds sess.current.downloadStatuses →
      NodupPids sess.current.downloadStatuses →
      (l.map (fun r => r.product_id)).Nodup →
      (∀ d ∈ l, d ∈ sess.current.downloadStatuses ∧ d.status = "pending") →
      ∀ e ∈ downloadBatchTrace envOf dir l i sess, e.1 = false := by
  intro l
  induction l with
  | nil => intro i sess _ _ _ _ e he; simp [downloadBatchTrace] at he
  | cons d rest ih =>
    intro i sess hnd hpd hsnod hmem e he
    obtain ⟨hdmem, hdst⟩ := hmem d (List.mem_cons_self d rest)
    have hcons : (d.product_id :: rest.map (fun r => r.product_id)).Nodup := by
      simpa using hsnod
    have hnotin := (List.nodup_cons.mp hcons).1
    have htail := (List.nodup_cons.mp hcons).2
    unfold downloadBatchTrace at he
    cases hP : findProduct sess.current d.product_id with
    | none =>
      have hstate : (download_product (envOf i) sess d.product_id dir).1 = sess := by
        unfold download_product
        rw [hP]
      have hsc : wouldShortCircuit sess.current d.product_id = false := by
        unfold wouldShortCircuit
        rw [hP]
      rcases List.mem_cons.mp he with he | he
      · subst he
        exact hsc
      · rw [hstate] at he
        exact ih (i + 1) sess hnd hpd htail
          (fun d' hd' => hmem d' (List.mem_cons_of_mem d hd')) e he
    | some product =>
      have hpeq : product.id = d.product_id := by
        simpa using List.find?_some hP
      have hD : findDownloadByProduct sess.current product.id = some d := by
        rw [hpeq]
        exact findDownloadByProduct_of_mem sess.current d hdmem hpd
      have hsc : wouldShortCircuit sess.current d.product_id = false := by
        unfold wouldShortCircuit
        rw [hP]
        simp only []
        rw [hD]
        simp only []
        rw [hdst]
        simp
      rcases List.mem_cons.mp he with he | he
      · subst he
        exact hsc
      · obtain ⟨g, hmap, hprop⟩ := download_product_frame (envOf i) sess
          d.product_id dir product d hP hD hnd
        have hpid_tail : ∀ d' ∈ rest, d'.product_id ≠ d.product_id := by
          intro d' hd' hcon
          exact hnotin (List.mem_map.mpr ⟨d', hd', hcon⟩)
        have hids : (download_product (envOf i) sess d.product_id
            dir).1.current.downloadStatuses.map (fun r => r.id) =
            sess.current.downloadStatuses.map (fun r => r.id) := by
          rw [hmap, List.map_map]
          exact List.map_congr_left (fun x hx => (hprop x hx).1)
        have hpids : (download_product (envOf i) sess d.product_id
            dir).1.current.downloadStatuses.map (fun r => r.product_id) =
            sess.current.downloadStatuses.map (fun r => r.product_id) := by
          rw [hmap, List.map_map]
          exact List.map_congr_left (fun x hx => (hprop x hx).2.1)
        have hnd' : NodupIds (download_product (envOf i) sess d.product_id
            dir).1.current.downloadStatuses := by
          have h : ((download_product (envOf i) sess d.product_id
              dir).1.current.downloadStatuses.map (fun r => r.id)).Nodup := by
            rw [hids]
            exact hnd
          exact h
        have hpd' : NodupPids (download_product (envOf i) sess d.product_id
            dir).1.current.downloadStatuses := by
          have h : ((download_product (envOf i) sess d.product_id
              dir).1.current.downloadStatuses.map (fun r => r.product_id)).Nodup := by
            rw [hpids]
            exact hpd
          exact h
        have hmem' : ∀ d' ∈ rest,
            d' ∈ (download_product (envOf i) sess d.product_id
              dir).1.current.downloadStatuses ∧ d'.status = "pending" := by
          intro d' hd'
          obtain ⟨hm, hst'⟩ := hmem d' (List.mem_cons_of_mem d hd')
          have hgd : g d' = d' := (hprop d' hm).2.2 (hpid_tail d' hd')
          refine ⟨?_, hst'⟩
          rw [hmap]
          exact List.mem_map.mpr ⟨d', hm, hgd⟩
        exact ih (i + 1) _ hnd' hpd' htail hmem' e he

/-- Claim C3: the `skipped` counter returned by
`download_pending_products` equals the number of invoked scenes that
took the idempotent short-circuit of `download_product` (row already
`downloaded` with a non-null `local_path`), and every short-circuited
scene would be tallied as `skipped` rather than `success`.  Under the
schema's uniqueness constraints both numbers are zero on every store:
the snapshot holds only `pending` rows, no iteration can flip another
snapshot row to `downloaded`, and `download_product` never returns the
`ok`-with-error shape the driver tallies as `skipped`. -/
theorem download_pending_skipped_spec (envOf : Nat → DownloadEnv)
    (sess : Session) (limit mr : Option Nat) (dir : String)
    (hnd : NodupIds sess.current.downloadStatuses)
    (hpd : NodupPids sess.current.downloadStatuses) :
    (download_pending_products envOf sess limit mr dir).2.skipped =
      (downloadBatchTrace envOf dir (pendingSnapshot sess limit) 0 sess).countP
        (fun e => e.1) ∧
    (∀ e ∈ downloadBatchTrace envOf dir (pendingSnapshot sess limit) 0 sess,
      e.1 = true → e.2 = Tally.skipped) := by
  have hsubf := pendingSnapshot_sublist sess limit
  have hsnodS : ((pendingSnapshot sess limit).map (fun r => r.product_id)).Nodup :=
    List.Nodup.sublist
      (List.Sublist.map (fun r => r.product_id)
        (hsubf.trans (List.filter_sublist _))) hpd
  have hmem : ∀ d ∈ pendingSnapshot sess limit,
      d ∈ sess.current.downloadStatuses ∧ d.status = "pending" := by
    intro d hd
    obtain ⟨h1, h2⟩ := List.mem_filter.mp (hsubf.subset hd)
    exact ⟨h1, by simpa using h2⟩
  have hnoSC := trace_no_short_circuit envOf dir (pendingSnapshot sess limit)
    0 sess hnd hpd hsnodS hmem
  have hnoSkip := trace_no_skip envOf dir (pendingSnapshot sess limit) 0 sess
  constructor
  · rw [download_pending_products_eq, downloadLoop_skipped]
    have h1 : (downloadBatchTrace envOf dir (pendingSnapshot sess limit)
        0 sess).countP (fun e => e.2 == Tally.skipped) = 0 :=
      List.countP_eq_zero.mpr (fun e he => by simpa using hnoSkip e he)
    have h2 : (downloadBatchTrace envOf dir (pendingSnapshot sess limit)
        0 sess).countP (fun e => e.1) = 0 :=
      List.countP_eq_zero.mpr (fun e he => by simpa using hnoSC e he)
    rw [h1, h2]
  · intro e he h1
    rw [hnoSC e he] at h1
    simp at h1

/-- Witness for C3 on the concrete one-pending-scene store. -/
theorem download_pending_skipped_spec_witness :
    (download_pending_products (fun _ => envFetchOk) (exSess exDsPending [])
      none none "data/sentinel2").2.skipped =
      (downloadBatchTrace (fun _ => envFetchOk) "data/sentinel2"
        (pendingSnapshot (exSess exDsPending []) none) 0
        (exSess exDsPending [])).countP (fun e => e.1) ∧
    (∀ e ∈ downloadBatchTrace (fun _ => envFetchOk) "data/sentinel2"
        (pendingSnapshot (exSess exDsPending []) none) 0 (exSess exDsPending []),
      e.1 = true → e.2 = Tally.skipped) :=
  download_pending_skipped_spec (fun _ => envFetchOk) (exSess exDsPending [])
    none none "data/sentinel2" (by decide) (by decide)

/-! ## Claim C8: NDSI computation -/

theorem ndsi_pixel_bounds (a b : ℚ) (ha : 0 ≤ a) (hb : 0 ≤ b) :
    -1 ≤ (a - b) / (a + b + EPSILON) ∧ (a - b) / (a + b + EPSILON) ≤ 1 := by
  have hε : (0 : ℚ) < EPSILON := by norm_num [EPSILON]
  have hd : (0 : ℚ) < a + b + EPSILON := by linarith
  constructor
  · rw [le_div_iff₀ hd]
    linarith
  · rw [div_le_one hd]
    linarith

/-- Claim C8: for equal-shape 2-D arrays, `calculate_ndsi` with
`epsilon = 1e-8` returns the elementwise
`(green - swir) / (green + swir + epsilon)`; it raises a shape-mismatch
error exactly when the shapes differ; for non-negative inputs every
output element lies in `[-1, 1]`; and a pixel where both bands are
exactly zero yields `0` (the epsilon term keeps the denominator
positive, so no NaN arises). -/
theorem calculate_ndsi_spec (g s : Grid) :
    (gridShape g = gridShape s →
      ∃ r, calculate_ndsi g s EPSILON = Except.ok r ∧
        gridShape r = gridShape g ∧
        (∀ i j, i < g.length → j < (g.getD i []).length →
          (r.getD i []).getD j 0 =
            ((g.getD i []).getD j 0 - (s.getD i []).getD j 0) /
              ((g.getD i []).getD j 0 + (s.getD i []).getD j 0 + EPSILON)) ∧
        ((∀ row ∈ g, ∀ v ∈ row, 0 ≤ v) → (∀ row ∈ s, ∀ v ∈ row, 0 ≤ v) →
          ∀ row ∈ r, ∀ v ∈ row, -1 ≤ v ∧ v ≤ 1) ∧
        (∀ i j, i < g.length → j < (g.getD i []).length →
          (g.getD i []).getD j 0 = 0 → (s.getD i []).getD j 0 = 0 →
          (r.getD i []).getD j 0 = 0)) ∧
    (gridShape g ≠ gridShape s →
      calculate_ndsi g s EPSILON =
        Except.error "Shape mismatch: band_green shape is not equal to band_swir shape") := by
  constructor
  · intro hsh
    have hlen : g.length = s.length := by
      have := congrArg Prod.fst hsh
      simpa [gridShape] using this
    have hrows : g.map List.length = s.map List.length := by
      have := congrArg Prod.snd hsh
      simpa [gridShape] using this
    refine ⟨List.zipWith (fun rg rs => List.zipWith
      (fun a b => (a - b) / (a + b + EPSILON)) rg rs) g s, ?_, ?_, ?_, ?_, ?_⟩
    · simp [calculate_ndsi, hsh]
    · have h1 : (List.zipWith (fun rg rs => List.zipWith
          (fun a b => (a - b) / (a + b + EPSILON)) rg rs) g s).length = g.length := by
        simp [List.length_zipWith, hlen]
      refine Prod.ext ?_ ?_
      · simpa [gridShape] using h1
      · simp only [gridShape]
        apply List.ext_getElem
        · simp [List.length_zipWith, hlen]
        · intro i h1' h2'
          have hig : i < g.length := by
            simpa [List.length_zipWith, hlen] using h1'
          have his : i < s.length := hlen ▸ hig
          have hz : i < (List.zipWith (fun rg rs => List.zipWith
              (fun a b => (a - b) / (a + b + EPSILON)) rg rs) g s).length := by
            simpa [List.length_zipWith, hlen] using hig
          have hrow : (g.getD i []).length = (s.getD i []).length := by
            rw [← getD_map List.length ([] : List ℚ) 0 g i hig,
              ← getD_map List.length ([] : List ℚ) 0 s i his, hrows]
          simp only [List.getElem_map]
          rw [List.getElem_zipWith]
          have hgg : (List.zipWith (fun rg rs => List.zipWith
              (fun a b => (a - b) / (a + b + EPSILON)) rg rs) g s)[i] =
              List.zipWith (fun a b => (a - b) / (a + b + EPSILON)) g[i] s[i] := by
            rw [List.getElem_zipWith]
          simp only [List.length_zipWith]
          have : g[i].length = s[i].length := by
            have hg' : g.getD i [] = g[i] := List.getD_eq_getElem g [] hig
            have hs' : s.getD i [] = s[i] := List.getD_eq_getElem s [] his
            rw [hg', hs'] at hrow
            exact hrow
          omega
    · intro i j hi hj
      have his : i < s.length := hlen ▸ hi
      have hrow : (g.getD i []).length = (s.getD i []).length := by
        rw [← getD_map List.length ([] : List ℚ) 0 g i hi,
          ← getD_map List.length ([] : List ℚ) 0 s i his, hrows]
      rw [getD_zipWith _ ([] : List ℚ) ([] : List ℚ) ([] : List ℚ) g s i hi his]
      rw [getD_zipWith _ (0 : ℚ) (0 : ℚ) (0 : ℚ) _ _ j hj (hrow ▸ hj)]
    · intro hg hs row hrow v hv
      rcases mem_of_mem_zipWith _ g s row hrow with ⟨rg, hrg, rs, hrs, hrow'⟩
      subst hrow'
      rcases mem_of_mem_zipWith _ rg rs v hv with ⟨a, ha, b, hb, hv'⟩
      subst hv'
      exact ndsi_pixel_bounds a b (hg rg hrg a ha) (hs rs hrs b hb)
    · intro i j hi hj hgz hsz
      have his : i < s.length := hlen ▸ hi
      have hrow : (g.getD i []).length = (s.getD i []).length := by
        rw [← getD_map List.length ([] : List ℚ) 0 g i hi,
          ← getD_map List.length ([] : List ℚ) 0 s i his, hrows]
      rw [getD_zipWith _ ([] : List ℚ) ([] : List ℚ) ([] : List ℚ) g s i hi his]
      rw [getD_zipWith _ (0 : ℚ) (0 : ℚ) (0 : ℚ) _ _ j hj (hrow ▸ hj)]
      rw [hgz, hsz]
      norm_num
  · intro hsh
    simp [calculate_ndsi, hsh]

/-- Witness for C8 at a concrete input: `green = [[100, 0]]`,
`swir = [[50, 0]]` have equal shapes, and `[[100]]` and `[[50, 0]]`
have different shapes. -/
theorem calculate_ndsi_spec_witness :
    (∃ r, calculate_ndsi [[(100 : ℚ), 0]] [[50, 0]] EPSILON = Except.ok r ∧
      gridShape r = gridShape [[(100 : ℚ), 0]] ∧
      (∀ i j, i < ([[(100 : ℚ), 0]] : Grid).length →
        j < (([[(100 : ℚ), 0]] : Grid).getD i []).length →
        (r.getD i []).getD j 0 =
          ((([[(100 : ℚ), 0]] : Grid).getD i []).getD j 0 -
              (([[(50 : ℚ), 0]] : Grid).getD i []).getD j 0) /
            ((([[(100 : ℚ), 0]] : Grid).getD i []).getD j 0 +
              (([[(50 : ℚ), 0]] : Grid).getD i []).getD j 0 + EPSILON)) ∧
      ((∀ row ∈ ([[(100 : ℚ), 0]] : Grid), ∀ v ∈ row, 0 ≤ v) →
        (∀ row ∈ ([[(50 : ℚ), 0]] : Grid), ∀ v ∈ row, 0 ≤ v) →
        ∀ row ∈ r, ∀ v ∈ row, -1 ≤ v ∧ v ≤ 1) ∧
      (∀ i j, i < ([[(100 : ℚ), 0]] : Grid).length →
        j < (([[(100 : ℚ), 0]] : Grid).getD i []).length →
        (([[(100 : ℚ), 0]] : Grid).getD i []).getD j 0 = 0 →
        (([[(50 : ℚ), 0]] : Grid).getD i []).getD j 0 = 0 →
        (r.getD i []).getD j 0 = 0)) ∧
    calculate_ndsi [[(100 : ℚ)]] [[50, 0]] EPSILON =
      Except.error "Shape mismatch: band_green shape is not equal to band_swir shape" := by
  constructor
  · exact (calculate_ndsi_spec [[(100 : ℚ), 0]] [[50, 0]]).1 (by decide)
  · exact (calculate_ndsi_spec [[(100 : ℚ)]] [[50, 0]]).2 (by decide)

/-! ## Claim C9: thresholding -/

/-- Claim C9: `apply_threshold` keeps the array shape and maps every
element to `1` exactly when it is strictly greater than the threshold
and to `0` otherwise (so each element fits the 8-bit unsigned mask
dtype), and in particular
`apply_threshold [0.39, 0.40, 0.41] 0.40 = [0, 0, 1]`. -/
theorem apply_threshold_spec (a : Grid) (t : ℚ) :
    ((apply_threshold a t).length = a.length ∧
      (apply_threshold a t).map List.length = a.map List.length) ∧
    (∀ i j, i < a.length → j < (a.getD i []).length →
      ((((apply_threshold a t).getD i []).getD j 0 = 1 ↔ t < (a.getD i []).getD j 0) ∧
        (((apply_threshold a t).getD i []).getD j 0 = 0 ∨
          ((apply_threshold a t).getD i []).getD j 0 = 1) ∧
        ((apply_threshold a t).getD i []).getD j 0 < 256)) ∧
    apply_threshold [[39/100, 2/5, 41/100]] (2/5) = [[0, 0, 1]] := by
  refine ⟨⟨by simp [apply_threshold], ?_⟩, ?_, by norm_num [apply_threshold]⟩
  · simp only [apply_threshold, List.map_map]
    apply List.map_congr_left
    intro row _
    simp
  · intro i j hi hj
    have hrow : (apply_threshold a t).getD i [] =
        (a.getD i []).map (fun v => if t < v then 1 else 0) := by
      simpa [apply_threshold] using
        getD_map (fun row => row.map (fun v => if t < v then (1 : Nat) else 0))
          ([] : List ℚ) ([] : List Nat) a i hi
    rw [hrow]
    rw [getD_map (fun v => if t < v then (1 : Nat) else 0) (0 : ℚ) (0 : Nat)
      (a.getD i []) j hj]
    by_cases h : t < (a.getD i []).getD j 0
    · rw [if_pos h]
      exact ⟨⟨fun _ => h, fun _ => rfl⟩, Or.inr rfl, by norm_num⟩
    · rw [if_neg h]
      exact ⟨⟨fun h1 => absurd h1 (by norm_num), fun hc => absurd hc h⟩,
        Or.inl rfl, by norm_num⟩

/-- Witness for C9 at a concrete input. -/
theorem apply_threshold_spec_witness :
    (0 : Nat) < ([[(39 : ℚ)/100, 2/5, 41/100]] : Grid).length ∧
    (1 : Nat) < (([[(39 : ℚ)/100, 2/5, 41/100]] : Grid).getD 0 []).length ∧
    ((((apply_threshold [[(39 : ℚ)/100, 2/5, 41/100]] (2/5)).getD 0 []).getD 1 0 = 1 ↔
        (2/5 : ℚ) < (([[(39 : ℚ)/100, 2/5, 41/100]] : Grid).getD 0 []).getD 1 0) ∧
      (((apply_threshold [[(39 : ℚ)/100, 2/5, 41/100]] (2/5)).getD 0 []).getD 1 0 = 0 ∨
        ((apply_threshold [[(39 : ℚ)/100, 2/5, 41/100]] (2/5)).getD 0 []).getD 1 0 = 1) ∧
      ((apply_threshold [[(39 : ℚ)/100, 2/5, 41/100]] (2/5)).getD 0 []).getD 1 0 < 256) := by
  refine ⟨by decide, by decide, ?_⟩
  exact ((apply_threshold_spec [[(39 : ℚ)/100, 2/5, 41/100]] (2/5)).2.1 0 1
    (by decide) (by decide))

end SnowPatches
